import Mathlib

/-!
Verification of the lib3h transport core and crypto abstraction.

This file shallowly embeds the Rust sources:
  * `crates/crypto_api/src/error/mod.rs` (the `CryptoError` enum),
  * `crates/crypto_api/src/crypto_system/crypto_system_test.rs`
    (the `FakeCryptoSystem` and `InsecureBuffer` test implementations),
  * `crates/lib3h/src/transport_wss/mod.rs` (the websocket transport
    manager: connection records, the handshake state machine, `process`,
    `send`, `bind`).

Byte buffers are modelled as `List Nat`; machine time (`std::time::Instant`)
as a `Nat` millisecond clock; the external socket world (TLS / websocket
handshake drivers, reads, writes) as per-tick oracle inputs.
-/

namespace Lib3h

/-- The `CryptoError` enum from `crates/crypto_api/src/error/mod.rs`. -/
inductive CryptoError where
  | Generic (msg : String)
  | OutputLength (msg : String)
  | OutOfMemory
  | WriteOverflow
  | BadHashSize
  | BadSaltSize
  | BadSeedSize
  | BadPublicKeySize
  | BadSecretKeySize
  | BadSignatureSize
deriving DecidableEq, Repr

/-- Modelled from the spec: the `Buffer::write(offset, bytes)` trait method
(its implementation lives in `crates/crypto_api/src/lib.rs`, which is not
among the provided sources).  Per spec section 4.A it "fails with
WriteOverflow if `offset + bytes.len() > len()`" and otherwise overwrites
the `bytes.len()` bytes starting at `offset`. -/
def bufWrite (dst : List Nat) (offset : Nat) (src : List Nat) :
    Except CryptoError (List Nat) :=
  if offset + src.length > dst.length then Except.error CryptoError.WriteOverflow
  else Except.ok (dst.take offset ++ src ++ dst.drop (offset + src.length))

theorem bufWrite_ok (dst : List Nat) (offset : Nat) (src : List Nat)
    (h : offset + src.length ≤ dst.length) :
    bufWrite dst offset src =
      Except.ok (dst.take offset ++ src ++ dst.drop (offset + src.length)) := by
  simp [bufWrite, Nat.not_lt.mpr h]

theorem bufWrite_length (dst : List Nat) (offset : Nat) (src : List Nat)
    (out : List Nat) (h : bufWrite dst offset src = Except.ok out) :
    out.length = dst.length := by
  by_cases hle : offset + src.length ≤ dst.length
  · rw [bufWrite_ok dst offset src hle] at h
    cases h
    simp [List.length_take]
    omega
  · simp [bufWrite, Nat.lt_of_not_le hle] at h

namespace FakeCryptoSystem

/-- `FakeCryptoSystem::hash_sha256_bytes`. -/
def hash_sha256_bytes : Nat := 32
/-- `FakeCryptoSystem::hash_sha512_bytes`. -/
def hash_sha512_bytes : Nat := 64
/-- `FakeCryptoSystem::pwhash_salt_bytes`. -/
def pwhash_salt_bytes : Nat := 8
/-- `FakeCryptoSystem::pwhash_bytes`. -/
def pwhash_bytes : Nat := 16
/-- `FakeCryptoSystem::sign_seed_bytes`. -/
def sign_seed_bytes : Nat := 8
/-- `FakeCryptoSystem::sign_public_key_bytes`. -/
def sign_public_key_bytes : Nat := 32
/-- `FakeCryptoSystem::sign_secret_key_bytes`. -/
def sign_secret_key_bytes : Nat := 8
/-- `FakeCryptoSystem::sign_bytes`. -/
def sign_bytes : Nat := 16

/-- `FakeCryptoSystem::hash_sha256`.  The SHA-256 digest itself comes from
the external `sha2` crate, so it is abstracted as the `digest` argument;
the size check guarding it is the repository's code. -/
def hash_sha256 (digest : List Nat → List Nat) (hash data : List Nat) :
    Except CryptoError (List Nat) :=
  if hash.length ≠ hash_sha256_bytes then Except.error CryptoError.BadHashSize
  else bufWrite hash 0 (digest data)

/-- `FakeCryptoSystem::hash_sha512`, digest abstracted as for SHA-256. -/
def hash_sha512 (digest : List Nat → List Nat) (hash data : List Nat) :
    Except CryptoError (List Nat) :=
  if hash.length ≠ hash_sha512_bytes then Except.error CryptoError.BadHashSize
  else bufWrite hash 0 (digest data)

/-- `FakeCryptoSystem::pwhash`: size checks, then writes the salt at offset 0
and (up to) the first 8 password bytes at offset 8. -/
def pwhash (hash password salt : List Nat) : Except CryptoError (List Nat) :=
  if hash.length ≠ pwhash_bytes then Except.error CryptoError.BadHashSize
  else if salt.length ≠ pwhash_salt_bytes then Except.error CryptoError.BadSaltSize
  else
    match bufWrite hash 0 salt with
    | Except.error e => Except.error e
    | Except.ok h1 =>
      bufWrite h1 8 (password.take (if password.length > 8 then 8 else password.length))

/-- `FakeCryptoSystem::sign_seed_keypair`: size checks (seed, then public
key, then secret key), then `secret_key.write(0, seed)` and
`public_key.zero(); public_key.write(0, seed)`.  Returns the resulting
(public key, secret key) contents. -/
def sign_seed_keypair (seed public_key secret_key : List Nat) :
    Except CryptoError (List Nat × List Nat) :=
  if seed.length ≠ sign_seed_bytes then Except.error CryptoError.BadSeedSize
  else if public_key.length ≠ sign_public_key_bytes then
    Except.error CryptoError.BadPublicKeySize
  else if secret_key.length ≠ sign_secret_key_bytes then
    Except.error CryptoError.BadSecretKeySize
  else
    match bufWrite secret_key 0 seed with
    | Except.error e => Except.error e
    | Except.ok sk =>
      match bufWrite (List.replicate public_key.length 0) 0 seed with
      | Except.error e => Except.error e
      | Except.ok pk => Except.ok (pk, sk)

/-- `FakeCryptoSystem::sign_keypair`: size checks, then a random 8-byte
seed (abstracted as the `randomSeed` argument, always of length
`sign_seed_bytes` in the code) is fed to `sign_seed_keypair`. -/
def sign_keypair (randomSeed public_key secret_key : List Nat) :
    Except CryptoError (List Nat × List Nat) :=
  if public_key.length ≠ sign_public_key_bytes then
    Except.error CryptoError.BadPublicKeySize
  else if secret_key.length ≠ sign_secret_key_bytes then
    Except.error CryptoError.BadSecretKeySize
  else sign_seed_keypair randomSeed public_key secret_key

/-- `FakeCryptoSystem::sign`: size checks, then writes the secret key at
offset 0 of the signature and (up to) the first 8 message bytes at
offset 8. -/
def sign (signature message secret_key : List Nat) :
    Except CryptoError (List Nat) :=
  if signature.length ≠ sign_bytes then Except.error CryptoError.BadSignatureSize
  else if secret_key.length ≠ sign_secret_key_bytes then
    Except.error CryptoError.BadSecretKeySize
  else
    match bufWrite signature 0 secret_key with
    | Except.error e => Except.error e
    | Except.ok s1 =>
      bufWrite s1 8 (message.take (if message.length > 8 then 8 else message.length))

/-- `FakeCryptoSystem::sign_verify`: size checks, then compares
`signature[0..8]` with `public_key[0..8]` and `signature[8..mlen+8]` with
`message[0..mlen]`. -/
def sign_verify (signature message public_key : List Nat) :
    Except CryptoError Bool :=
  if signature.length ≠ sign_bytes then Except.error CryptoError.BadSignatureSize
  else if public_key.length ≠ sign_public_key_bytes then
    Except.error CryptoError.BadPublicKeySize
  else
    Except.ok ((signature.take 8 == public_key.take 8) &&
      ((signature.drop 8).take (if message.length > 8 then 8 else message.length) ==
        message.take (if message.length > 8 then 8 else message.length)))

end FakeCryptoSystem

/-- The `ProtectState` enum (declared in `crates/crypto_api/src/lib.rs`,
used by `InsecureBuffer` in the provided test source). -/
inductive ProtectState where
  | NoAccess
  | ReadOnly
  | ReadWrite
deriving DecidableEq, Repr

/-- `InsecureBuffer` from `crypto_system_test.rs`: a boxed byte slice plus a
`RefCell<ProtectState>`. -/
structure InsecureBuffer where
  b : List Nat
  p : ProtectState
deriving DecidableEq, Repr

/-- `InsecureBuffer::new(size)`: zero-filled, `NoAccess`. -/
def InsecureBuffer.new (size : Nat) : InsecureBuffer :=
  ⟨List.replicate size 0, ProtectState.NoAccess⟩

/-- `InsecureBuffer::box_clone`, i.e. `Box::new(self.clone())` with the
derived `Clone`: both the bytes and the `RefCell<ProtectState>` contents
are copied. -/
def box_clone (buf : InsecureBuffer) : InsecureBuffer := buf

/-- `InsecureBuffer::set_readable`: panics (modelled as `none`) unless the
current state is `NoAccess`, else moves to `ReadOnly`. -/
def set_readable (buf : InsecureBuffer) : Option InsecureBuffer :=
  if buf.p = ProtectState.NoAccess then some { buf with p := ProtectState.ReadOnly }
  else none

/-- `InsecureBuffer::set_no_access`: panics (modelled as `none`) if already
`NoAccess`, else moves to `NoAccess`. -/
def set_no_access (buf : InsecureBuffer) : Option InsecureBuffer :=
  if buf.p = ProtectState.NoAccess then none
  else some { buf with p := ProtectState.NoAccess }

/-- Modelled from the spec: the `Buffer::zero` trait method (implemented in
`crates/crypto_api/src/lib.rs`, not among the provided sources).  Spec
section 4.A: "`zero()` overwrites the contents with zero bytes regardless of
current protection". -/
def zero (buf : InsecureBuffer) : InsecureBuffer :=
  { buf with b := List.replicate buf.b.length 0 }

/-- Modelled from the spec: the `Buffer::write` trait method applied to an
`InsecureBuffer` (grants scoped write access, writes, releases); the byte
effect is `bufWrite`, the protection state is restored on exit. -/
def ibWrite (buf : InsecureBuffer) (offset : Nat) (data : List Nat) :
    Except CryptoError InsecureBuffer :=
  match bufWrite buf.b offset data with
  | Except.error e => Except.error e
  | Except.ok b2 => Except.ok { buf with b := b2 }

/-! ## The websocket transport (`crates/lib3h/src/transport_wss/mod.rs`) -/

/-- The `TransportEvent` enum from the transport protocol module. -/
inductive TransportEvent where
  | ConnectResult (id : String)
  | Connection (id : String)
  | Received (id : String) (payload : List Nat)
  | Closed (id : String)
  | TransportError (id : String) (err : String)
deriving DecidableEq, Repr

/-- The id a `TransportEvent` refers to. -/
def eventId : TransportEvent → String
  | TransportEvent.ConnectResult id => id
  | TransportEvent.Connection id => id
  | TransportEvent.Received id _ => id
  | TransportEvent.Closed id => id
  | TransportEvent.TransportError id _ => id

/-- The `WebsocketStreamState` enum: the payload sockets/handshake values
live in the external world, so only the tags are carried here. -/
inductive WebsocketStreamState where
  | None
  | Connecting
  | ConnectingSrv
  | TlsMidHandshake
  | TlsSrvMidHandshake
  | TlsReady
  | TlsSrvReady
  | WsMidHandshake
  | WsSrvMidHandshake
  | WssMidHandshake
  | WssSrvMidHandshake
  | ReadyWs
  | ReadyWss
deriving DecidableEq, Repr

/-- `DEFAULT_HEARTBEAT_MS`: "how often should we send a heartbeat if we
have not received msgs". -/
def DEFAULT_HEARTBEAT_MS : Nat := 2000

/-- `DEFAULT_HEARTBEAT_WAIT_MS`: "when should we close a connection due to
not receiving remote msgs". -/
def DEFAULT_HEARTBEAT_WAIT_MS : Nat := 5000

/-- The `WssInfo` connection record: id, peer url, last-activity instant
(`last_msg`, in ms), outbound queue, and handshake stage. -/
structure WssInfo where
  id : String
  url : String
  lastMsg : Nat
  sendQueue : List (List Nat)
  statefulSocket : WebsocketStreamState
deriving DecidableEq, Repr

/-- The `TlsConfig` enum. -/
inductive TlsConfig where
  | Unencrypted
  | FakeServer
  | SuppliedCertificate (pkcs12_data : List Nat) (passphrase : String)
deriving DecidableEq, Repr

/-- Outcome of driving a TLS or websocket handshake once on the external
socket: completion, a would-block suspension, or a fatal error. -/
inductive HsResult where
  | complete
  | wouldBlock
  | fatal (err : String)
deriving DecidableEq, Repr

/-- A websocket message delivered by `read_message`. -/
inductive WsMessage where
  | text (bytes : List Nat)
  | binary (bytes : List Nat)
  | other
deriving DecidableEq, Repr

/-- Outcome of one non-blocking `read_message` call on a ready socket. -/
inductive ReadResult where
  | wouldBlock
  | connectionClosed
  | ioErr (err : String)
  | otherErr (err : String)
  | message (msg : WsMessage)
deriving DecidableEq, Repr

/-- Per-tick behaviour of one connection's external socket: handshake
driver outcome, index of the first failing queued write (if any), read
outcome, and whether a heartbeat ping write would succeed. -/
structure SocketIo where
  hs : HsResult
  writeFailAt : Option (Nat × String)
  read : ReadResult
  pingOk : Bool
  pingErr : String
deriving Repr

/-- Result of `priv_process_socket` on one record: the record (with its
stage moved out and the new stage installed), the events pushed to the
event queue, the binary frames written to the socket, the did-work flag,
and the error (`Err`) if the call returned one. -/
structure StepOut where
  info : WssInfo
  events : List TransportEvent
  written : List (List Nat)
  didWork : Bool
  err : Option String
deriving Repr

/-- `priv_tls_handshake`: would-block parks as `TlsMidHandshake`,
completion yields `TlsReady`, other errors propagate. -/
def priv_tls_handshake : HsResult → Except String WebsocketStreamState
  | HsResult.wouldBlock => Except.ok WebsocketStreamState.TlsMidHandshake
  | HsResult.fatal e => Except.error e
  | HsResult.complete => Except.ok WebsocketStreamState.TlsReady

/-- `priv_tls_srv_handshake`. -/
def priv_tls_srv_handshake : HsResult → Except String WebsocketStreamState
  | HsResult.wouldBlock => Except.ok WebsocketStreamState.TlsSrvMidHandshake
  | HsResult.fatal e => Except.error e
  | HsResult.complete => Except.ok WebsocketStreamState.TlsSrvReady

/-- `priv_ws_handshake`: completion pushes `ConnectResult(id)` and yields
`ReadyWs`. -/
def priv_ws_handshake (id : String) :
    HsResult → Except String (WebsocketStreamState × List TransportEvent)
  | HsResult.wouldBlock => Except.ok (WebsocketStreamState.WsMidHandshake, [])
  | HsResult.fatal e => Except.error e
  | HsResult.complete =>
    Except.ok (WebsocketStreamState.ReadyWs, [TransportEvent.ConnectResult id])

/-- `priv_wss_handshake`. -/
def priv_wss_handshake (id : String) :
    HsResult → Except String (WebsocketStreamState × List TransportEvent)
  | HsResult.wouldBlock => Except.ok (WebsocketStreamState.WssMidHandshake, [])
  | HsResult.fatal e => Except.error e
  | HsResult.complete =>
    Except.ok (WebsocketStreamState.ReadyWss, [TransportEvent.ConnectResult id])

/-- `priv_ws_srv_handshake`: completion pushes `Connection(id)`. -/
def priv_ws_srv_handshake (id : String) :
    HsResult → Except String (WebsocketStreamState × List TransportEvent)
  | HsResult.wouldBlock => Except.ok (WebsocketStreamState.WsSrvMidHandshake, [])
  | HsResult.fatal e => Except.error e
  | HsResult.complete =>
    Except.ok (WebsocketStreamState.ReadyWs, [TransportEvent.Connection id])

/-- `priv_wss_srv_handshake`. -/
def priv_wss_srv_handshake (id : String) :
    HsResult → Except String (WebsocketStreamState × List TransportEvent)
  | HsResult.wouldBlock => Except.ok (WebsocketStreamState.WssSrvMidHandshake, [])
  | HsResult.fatal e => Except.error e
  | HsResult.complete =>
    Except.ok (WebsocketStreamState.ReadyWss, [TransportEvent.Connection id])

/-- Install the outcome of an event-producing handshake driver call on a
record (`info.stateful_socket = self.priv_..._handshake(...)?`). -/
def hsStep (i : WssInfo) (dw : Bool)
    (r : Except String (WebsocketStreamState × List TransportEvent)) : StepOut :=
  match r with
  | Except.error e => ⟨i, [], [], dw, some e⟩
  | Except.ok (st, evs) => ⟨{ i with statefulSocket := st }, evs, [], dw, none⟩

/-- Install the outcome of a TLS handshake driver call on a record. -/
def hsStepNoEv (i : WssInfo) (dw : Bool)
    (r : Except String WebsocketStreamState) : StepOut :=
  match r with
  | Except.error e => ⟨i, [], [], dw, some e⟩
  | Except.ok st => ⟨{ i with statefulSocket := st }, [], [], dw, none⟩

/-- The read half of the `ReadyWs` / `ReadyWss` arms of
`priv_process_socket`: one non-blocking `read_message`.  `i` already has
its queue drained and stage `None`; `msgs` are the frames written so far. -/
def stepReadyRead (ready : WebsocketStreamState) (now : Nat) (io : SocketIo)
    (i : WssInfo) (msgs : List (List Nat)) : StepOut :=
  match io.read with
  | ReadResult.wouldBlock => ⟨{ i with statefulSocket := ready }, [], msgs, false, none⟩
  | ReadResult.connectionClosed => ⟨i, [], msgs, false, none⟩
  | ReadResult.ioErr e => ⟨i, [], msgs, false, some e⟩
  | ReadResult.otherErr e => ⟨i, [], msgs, false, some e⟩
  | ReadResult.message m =>
    match m with
    | WsMessage.text bytes =>
      ⟨{ i with lastMsg := now, statefulSocket := ready },
        [TransportEvent.Received i.id bytes], msgs, true, none⟩
    | WsMessage.binary bytes =>
      ⟨{ i with lastMsg := now, statefulSocket := ready },
        [TransportEvent.Received i.id bytes], msgs, true, none⟩
    | WsMessage.other =>
      ⟨{ i with lastMsg := now, statefulSocket := ready }, [], msgs, true, none⟩

/-- The `ReadyWs` / `ReadyWss` arms of `priv_process_socket`: drain the
send queue, write each drained frame as a binary message (an error at the
k-th write loses the drained suffix), then attempt one read. -/
def stepReady (ready : WebsocketStreamState) (now : Nat) (io : SocketIo)
    (base : WssInfo) : StepOut :=
  let msgs := base.sendQueue
  let i := { base with sendQueue := ([] : List (List Nat)) }
  match io.writeFailAt with
  | some (k, e) =>
    if k < msgs.length then ⟨i, [], msgs.take k, false, some e⟩
    else stepReadyRead ready now io i msgs
  | none => stepReadyRead ready now io i msgs

/-- `priv_process_socket`: the state machine of an individual socket
stream.  The stage is first moved out (`std::mem::replace(_, None)`), so
every error return leaves the record at stage `None`. -/
def priv_process_socket (tls : TlsConfig) (now : Nat) (io : SocketIo)
    (info : WssInfo) : StepOut :=
  let base : WssInfo := { info with statefulSocket := WebsocketStreamState.None }
  match info.statefulSocket with
  | WebsocketStreamState.None => ⟨base, [], [], false, none⟩
  | WebsocketStreamState.Connecting =>
    let i := { base with lastMsg := now }
    match tls with
    | TlsConfig.Unencrypted => hsStep i true (priv_ws_handshake i.id io.hs)
    | _ => hsStepNoEv i true (priv_tls_handshake io.hs)
  | WebsocketStreamState.ConnectingSrv =>
    let i := { base with lastMsg := now }
    match tls with
    | TlsConfig.Unencrypted => hsStep i true (priv_ws_srv_handshake i.id io.hs)
    | _ => hsStepNoEv i true (priv_tls_srv_handshake io.hs)
  | WebsocketStreamState.TlsMidHandshake => hsStepNoEv base false (priv_tls_handshake io.hs)
  | WebsocketStreamState.TlsSrvMidHandshake =>
    hsStepNoEv base false (priv_tls_srv_handshake io.hs)
  | WebsocketStreamState.TlsReady =>
    hsStep { base with lastMsg := now } true (priv_wss_handshake base.id io.hs)
  | WebsocketStreamState.TlsSrvReady =>
    hsStep { base with lastMsg := now } true (priv_wss_srv_handshake base.id io.hs)
  | WebsocketStreamState.WsMidHandshake => hsStep base false (priv_ws_handshake base.id io.hs)
  | WebsocketStreamState.WsSrvMidHandshake =>
    hsStep base false (priv_ws_srv_handshake base.id io.hs)
  | WebsocketStreamState.WssMidHandshake => hsStep base false (priv_wss_handshake base.id io.hs)
  | WebsocketStreamState.WssSrvMidHandshake =>
    hsStep base false (priv_wss_srv_handshake base.id io.hs)
  | WebsocketStreamState.ReadyWs => stepReady WebsocketStreamState.ReadyWs now io base
  | WebsocketStreamState.ReadyWss => stepReady WebsocketStreamState.ReadyWss now io base

/-- Outcome of the per-connection body of the loop in
`priv_process_stream_sockets`: re-insert the record, drop it (after a
`Closed` event), or abort the whole tick (a failed heartbeat ping write
propagates with `?`). -/
inductive ConnStep where
  | keep (info : WssInfo) (evs : List TransportEvent) (didWork : Bool)
  | drop (evs : List TransportEvent) (didWork : Bool)
  | abort (evs : List TransportEvent) (didWork : Bool) (err : String)
deriving DecidableEq, Repr

/-- The `TransportError` event a per-connection `Err` turns into, if any. -/
def errEvs (r : StepOut) : List TransportEvent :=
  match r.err with
  | some e => [TransportEvent.TransportError r.info.id e]
  | none => []

/-- The per-connection body of the loop in `priv_process_stream_sockets`,
as a function of the step result: turn an `Err` into a `TransportError`
event, emit `Closed` and drop the record when its stage is `None`, then
apply the heartbeat policy (note the `else if`: the idle-reap branch
requires elapsed ≤ `DEFAULT_HEARTBEAT_MS` and elapsed >
`DEFAULT_HEARTBEAT_WAIT_MS`, exactly as in the source). -/
def tickConnBody (io : SocketIo) (now : Nat) (r : StepOut) : ConnStep :=
  if r.info.statefulSocket = WebsocketStreamState.None then
    ConnStep.drop (r.events ++ errEvs r ++ [TransportEvent.Closed r.info.id]) r.didWork
  else if now - r.info.lastMsg > DEFAULT_HEARTBEAT_MS then
    if (r.info.statefulSocket = WebsocketStreamState.ReadyWs ∨
        r.info.statefulSocket = WebsocketStreamState.ReadyWss) ∧ io.pingOk = false then
      ConnStep.abort (r.events ++ errEvs r) r.didWork io.pingErr
    else ConnStep.keep r.info (r.events ++ errEvs r) r.didWork
  else if now - r.info.lastMsg > DEFAULT_HEARTBEAT_WAIT_MS then
    ConnStep.drop (r.events ++ errEvs r ++ [TransportEvent.Closed r.info.id]) r.didWork
  else ConnStep.keep r.info (r.events ++ errEvs r) r.didWork

/-- The per-connection body of the loop in `priv_process_stream_sockets`:
step the socket, then handle events, closing and heartbeat. -/
def tickConn (tls : TlsConfig) (now : Nat) (io : SocketIo) (info : WssInfo) : ConnStep :=
  tickConnBody io now (priv_process_socket tls now io info)

/-- Result of the socket loop: the rebuilt table, the event queue, the
did-work flag, and the propagated error if the tick aborted. -/
structure LoopOut where
  table : List (String × WssInfo)
  evq : List TransportEvent
  didWork : Bool
  err : Option String
deriving Repr

/-- The socket loop of `priv_process_stream_sockets`: the drained records
are processed in order; re-inserted records go back in the table; an
aborted tick leaves the unprocessed remainder dropped (the sockets were
drained out of the table and are never re-inserted). -/
def processLoop (tls : TlsConfig) (now : Nat) (io : String → SocketIo) :
    List (String × WssInfo) → List (String × WssInfo) → List TransportEvent → Bool → LoopOut
  | [], table, evq, dw => ⟨table, evq, dw, none⟩
  | p :: rest, table, evq, dw =>
    match tickConn tls now (io p.1) p.2 with
    | ConnStep.keep i evs d => processLoop tls now io rest (table ++ [(p.1, i)]) (evq ++ evs) (dw || d)
    | ConnStep.drop evs d => processLoop tls now io rest table (evq ++ evs) (dw || d)
    | ConnStep.abort evs d e => ⟨table, evq ++ evs, dw || d, some e⟩

/-- The `TransportWss` manager state.  The stream factory and binder are
external callables; the installed acceptor is abstracted to a tag, with
`Err` for the initial "acceptor not initialized" state. -/
structure TransportWss where
  tlsConfig : TlsConfig
  streamSockets : List (String × WssInfo)
  eventQueue : List TransportEvent
  nId : Nat
  acceptor : Except String Nat

/-- Association-list lookup, the model of `HashMap::get`. -/
def tlookup : List (String × WssInfo) → String → Option WssInfo
  | [], _ => none
  | (k, v) :: rest, id => if k = id then some v else tlookup rest id

/-- Update the binding of a key if present (the model of
`HashMap::get_mut`). -/
def updateBinding : List (String × WssInfo) → String → (WssInfo → WssInfo) →
    List (String × WssInfo)
  | [], _, _ => []
  | (k, v) :: rest, id, f =>
    if k = id then (k, f v) :: updateBinding rest id f
    else (k, v) :: updateBinding rest id f

/-- `HashMap::insert`: replace the value of an existing key, else add the
binding. -/
def insertBinding (l : List (String × WssInfo)) (id : String) (v : WssInfo) :
    List (String × WssInfo) :=
  if (tlookup l id).isSome then updateBinding l id (fun _ => v)
  else l ++ [(id, v)]

/-- Inputs of one `process` tick: the clock value, the acceptor call's
outcome, and each connection's socket behaviour. -/
structure TickInput where
  now : Nat
  accept : Except String WssInfo
  io : String → SocketIo

/-- `priv_process_accept`: with an installed acceptor, a successful accept
inserts the new record under its id (no event is pushed); an acceptor in
the error state or a failed accept does nothing. -/
def priv_process_accept (m : TransportWss) (accept : Except String WssInfo) :
    TransportWss × Bool :=
  match m.acceptor with
  | Except.error _ => (m, false)
  | Except.ok _ =>
    match accept with
    | Except.ok info =>
      ({ m with streamSockets := insertBinding m.streamSockets info.id info }, true)
    | Except.error _ => (m, false)

/-- `priv_process_stream_sockets`: accept, drain the table, run the loop. -/
def priv_process_stream_sockets (m : TransportWss) (t : TickInput) :
    TransportWss × Except String Bool :=
  let a := priv_process_accept m t.accept
  let r := processLoop a.1.tlsConfig t.now t.io a.1.streamSockets [] a.1.eventQueue a.2
  ({ a.1 with streamSockets := r.table, eventQueue := r.evq },
    match r.err with
    | some e => Except.error e
    | none => Except.ok r.didWork)

/-- `process`: one tick.  On success the event queue is drained and
returned; on error the partially mutated state is kept and the events stay
queued. -/
def process (m : TransportWss) (t : TickInput) :
    TransportWss × Except String (Bool × List TransportEvent) :=
  let r := priv_process_stream_sockets m t
  match r.2 with
  | Except.error e => (r.1, Except.error e)
  | Except.ok dw => ({ r.1 with eventQueue := [] }, Except.ok (dw, r.1.eventQueue))

/-- One step of `send`: push the payload onto the queue of `id` if the id
is tracked, else do nothing. -/
def sendToId (table : List (String × WssInfo)) (id : String) (payload : List Nat) :
    List (String × WssInfo) :=
  updateBinding table id
    (fun i => { i with sendQueue := i.sendQueue ++ [payload] })

/-- `send(id_list, payload)`: appends the payload to each listed id's
queue when present, silently skipping unknown ids, and returns `Ok(())`. -/
def send (m : TransportWss) (idList : List String) (payload : List Nat) :
    TransportWss × Except String Unit :=
  ({ m with streamSockets :=
      idList.foldl (fun t id => sendToId t id payload) m.streamSockets },
    Except.ok ())

/-- How many times `id` occurs in an id list. -/
def countId : List String → String → Nat
  | [], _ => 0
  | c :: rest, id => countId rest id + (if c = id then 1 else 0)

/-- `connection_id_list`: the keys of the connection table. -/
def connection_id_list (m : TransportWss) : List String :=
  m.streamSockets.map Prod.fst

/-- `TransportWss::new`: fresh manager with the not-initialized acceptor. -/
def TransportWss.new : TransportWss :=
  { tlsConfig := TlsConfig.FakeServer, streamSockets := [], eventQueue := [],
    nId := 1, acceptor := Except.error "acceptor not initialized" }

/-- `bind(url)`: run the binder; on error, return it leaving the manager
(including any previously installed acceptor) unchanged; on success,
install the new acceptor and return the url. -/
def bind (m : TransportWss) (binderResult : Except String Nat) (url : String) :
    TransportWss × Except String String :=
  match binderResult with
  | Except.error e => (m, Except.error e)
  | Except.ok a => ({ m with acceptor := Except.ok a }, Except.ok url)

/-- The table state after the accept phase of a tick. -/
def postAccept (m : TransportWss) (t : TickInput) : TransportWss :=
  (priv_process_accept m t.accept).1

/-- Did-work contribution of the accept phase of a tick. -/
def acceptDW (m : TransportWss) (t : TickInput) : Bool :=
  (priv_process_accept m t.accept).2

/-- Events produced by a `ConnStep`. -/
def ConnStep.evs : ConnStep → List TransportEvent
  | ConnStep.keep _ e _ => e
  | ConnStep.drop e _ => e
  | ConnStep.abort e _ _ => e

/-- The record a `ConnStep` re-inserts, if any. -/
def ConnStep.kept : ConnStep → Option WssInfo
  | ConnStep.keep i _ _ => some i
  | ConnStep.drop _ _ => none
  | ConnStep.abort _ _ _ => none

/-- The tick-aborting error of a `ConnStep`, if any. -/
def ConnStep.aborted : ConnStep → Option String
  | ConnStep.abort _ _ e => some e
  | ConnStep.keep _ _ _ => none
  | ConnStep.drop _ _ => none

/-- Did-work flag of a `ConnStep`. -/
def ConnStep.dwOf : ConnStep → Bool
  | ConnStep.keep _ _ d => d
  | ConnStep.drop _ d => d
  | ConnStep.abort _ d _ => d

/-- Records re-inserted by processing the drained list in order. -/
def keptCat (tls : TlsConfig) (now : Nat) (io : String → SocketIo) :
    List (String × WssInfo) → List (String × WssInfo)
  | [] => []
  | p :: rest =>
    (match (tickConn tls now (io p.1) p.2).kept with
     | some i => [(p.1, i)]
     | none => []) ++ keptCat tls now io rest

/-- Events pushed by processing the drained list in order. -/
def evsCat (tls : TlsConfig) (now : Nat) (io : String → SocketIo) :
    List (String × WssInfo) → List TransportEvent
  | [] => []
  | p :: rest => (tickConn tls now (io p.1) p.2).evs ++ evsCat tls now io rest

/-- Did-work flag accumulated by processing the drained list. -/
def dwAny (tls : TlsConfig) (now : Nat) (io : String → SocketIo) :
    List (String × WssInfo) → Bool
  | [] => false
  | p :: rest => (tickConn tls now (io p.1) p.2).dwOf || dwAny tls now io rest

theorem hsStep_err_stage (i : WssInfo) (dw : Bool)
    (r : Except String (WebsocketStreamState × List TransportEvent)) (e : String)
    (h : (hsStep i dw r).err = some e) :
    (hsStep i dw r).events = [] ∧
      (hsStep i dw r).info.statefulSocket = i.statefulSocket := by
  cases r with
  | error e2 => exact ⟨rfl, rfl⟩
  | ok st => rcases st with ⟨st, evs⟩; simp [hsStep] at h

theorem hsStepNoEv_err_stage (i : WssInfo) (dw : Bool)
    (r : Except String WebsocketStreamState) (e : String)
    (h : (hsStepNoEv i dw r).err = some e) :
    (hsStepNoEv i dw r).events = [] ∧
      (hsStepNoEv i dw r).info.statefulSocket = i.statefulSocket := by
  cases r with
  | error e2 => exact ⟨rfl, rfl⟩
  | ok st => simp [hsStepNoEv] at h

theorem stepReadyRead_err_stage (ready : WebsocketStreamState) (now : Nat)
    (io : SocketIo) (i : WssInfo) (msgs : List (List Nat)) (e : String)
    (h : (stepReadyRead ready now io i msgs).err = some e) :
    (stepReadyRead ready now io i msgs).events = [] ∧
      (stepReadyRead ready now io i msgs).info.statefulSocket = i.statefulSocket := by
  cases hr : io.read with
  | wouldBlock => simp [stepReadyRead, hr] at h
  | connectionClosed => exact ⟨by simp [stepReadyRead, hr], by simp [stepReadyRead, hr]⟩
  | ioErr e2 => exact ⟨by simp [stepReadyRead, hr], by simp [stepReadyRead, hr]⟩
  | otherErr e2 => exact ⟨by simp [stepReadyRead, hr], by simp [stepReadyRead, hr]⟩
  | message m => cases m <;> simp [stepReadyRead, hr] at h

theorem stepReady_err_stage (ready : WebsocketStreamState) (now : Nat)
    (io : SocketIo) (base : WssInfo) (e : String)
    (h : (stepReady ready now io base).err = some e) :
    (stepReady ready now io base).events = [] ∧
      (stepReady ready now io base).info.statefulSocket = base.statefulSocket := by
  unfold stepReady at h ⊢
  cases hw : io.writeFailAt with
  | none => simp only [hw] at h ⊢; exact stepReadyRead_err_stage _ _ _ _ _ _ h
  | some ke =>
    rcases ke with ⟨k, e2⟩
    simp only [hw] at h ⊢
    by_cases hk : k < base.sendQueue.length
    · rw [if_pos hk] at h ⊢; exact ⟨rfl, rfl⟩
    · rw [if_neg hk] at h ⊢; exact stepReadyRead_err_stage _ _ _ _ _ _ h

/-- Every error return of `priv_process_socket` pushed no events and left
the record at stage `None` (the stage had been moved out and is never
re-installed on an error path). -/
theorem priv_process_socket_err (tls : TlsConfig) (now : Nat) (io : SocketIo)
    (info : WssInfo) (e : String)
    (h : (priv_process_socket tls now io info).err = some e) :
    (priv_process_socket tls now io info).events = [] ∧
      (priv_process_socket tls now io info).info.statefulSocket =
        WebsocketStreamState.None := by
  obtain ⟨id, url, lm, q, st⟩ := info
  cases st <;> cases tls <;>
    simp only [priv_process_socket] at h ⊢ <;>
    first
      | simp at h
      | exact hsStep_err_stage _ _ _ _ h
      | exact hsStepNoEv_err_stage _ _ _ _ h
      | exact stepReady_err_stage _ _ _ _ _ h

theorem hsStep_id (i : WssInfo) (dw : Bool)
    (r : Except String (WebsocketStreamState × List TransportEvent)) :
    (hsStep i dw r).info.id = i.id := by
  cases r with
  | error e => rfl
  | ok st => rcases st with ⟨st, evs⟩; rfl

theorem hsStepNoEv_id (i : WssInfo) (dw : Bool)
    (r : Except String WebsocketStreamState) :
    (hsStepNoEv i dw r).info.id = i.id := by
  cases r with
  | error e => rfl
  | ok st => rfl

theorem stepReadyRead_id (ready : WebsocketStreamState) (now : Nat)
    (io : SocketIo) (i : WssInfo) (msgs : List (List Nat)) :
    (stepReadyRead ready now io i msgs).info.id = i.id := by
  cases hr : io.read with
  | wouldBlock => simp [stepReadyRead, hr]
  | connectionClosed => simp [stepReadyRead, hr]
  | ioErr e => simp [stepReadyRead, hr]
  | otherErr e => simp [stepReadyRead, hr]
  | message m => cases m <;> simp [stepReadyRead, hr]

theorem stepReady_id (ready : WebsocketStreamState) (now : Nat)
    (io : SocketIo) (base : WssInfo) :
    (stepReady ready now io base).info.id = base.id := by
  cases hw : io.writeFailAt with
  | none => simp only [stepReady, hw]; exact stepReadyRead_id _ _ _ _ _
  | some ke =>
    rcases ke with ⟨k, e⟩
    by_cases hk : k < base.sendQueue.length
    · simp [stepReady, hw, hk]
    · simp only [stepReady, hw, if_neg hk]; exact stepReadyRead_id _ _ _ _ _

/-- `priv_process_socket` never changes the record's id. -/
theorem priv_process_socket_id (tls : TlsConfig) (now : Nat) (io : SocketIo)
    (info : WssInfo) :
    (priv_process_socket tls now io info).info.id = info.id := by
  obtain ⟨id, url, lm, q, st⟩ := info
  cases st <;> cases tls <;>
    simp only [priv_process_socket] <;>
    first
      | rfl
      | exact hsStep_id _ _ _
      | exact hsStepNoEv_id _ _ _
      | exact stepReady_id _ _ _ _

theorem hsStepNoEv_events (i : WssInfo) (dw : Bool)
    (r : Except String WebsocketStreamState) :
    (hsStepNoEv i dw r).events = [] := by
  cases r with
  | error e => rfl
  | ok st => rfl

theorem hsStep_hs_events_id (i : WssInfo) (dw : Bool) (id : String) (hs : HsResult)
    (r : Except String (WebsocketStreamState × List TransportEvent))
    (hr : r = priv_ws_handshake id hs ∨ r = priv_wss_handshake id hs ∨
          r = priv_ws_srv_handshake id hs ∨ r = priv_wss_srv_handshake id hs) :
    ∀ ev ∈ (hsStep i dw r).events, eventId ev = id := by
  rcases hr with h | h | h | h <;> subst h <;> cases hs <;>
    simp [hsStep, priv_ws_handshake, priv_wss_handshake, priv_ws_srv_handshake,
      priv_wss_srv_handshake, eventId]

theorem stepReadyRead_events_id (ready : WebsocketStreamState) (now : Nat)
    (io : SocketIo) (i : WssInfo) (msgs : List (List Nat)) :
    ∀ ev ∈ (stepReadyRead ready now io i msgs).events, eventId ev = i.id := by
  cases hr : io.read with
  | wouldBlock => simp [stepReadyRead, hr]
  | connectionClosed => simp [stepReadyRead, hr]
  | ioErr e => simp [stepReadyRead, hr]
  | otherErr e => simp [stepReadyRead, hr]
  | message m => cases m <;> simp [stepReadyRead, hr, eventId]

theorem stepReady_events_id (ready : WebsocketStreamState) (now : Nat)
    (io : SocketIo) (base : WssInfo) :
    ∀ ev ∈ (stepReady ready now io base).events, eventId ev = base.id := by
  cases hw : io.writeFailAt with
  | none => simp only [stepReady, hw]; exact stepReadyRead_events_id _ _ _ _ _
  | some ke =>
    rcases ke with ⟨k, e⟩
    by_cases hk : k < base.sendQueue.length
    · simp [stepReady, hw, hk]
    · simp only [stepReady, hw, if_neg hk]; exact stepReadyRead_events_id _ _ _ _ _

/-- Every event pushed by `priv_process_socket` carries the record's id. -/
theorem priv_process_socket_events_id (tls : TlsConfig) (now : Nat)
    (io : SocketIo) (info : WssInfo) :
    ∀ ev ∈ (priv_process_socket tls now io info).events, eventId ev = info.id := by
  obtain ⟨id, url, lm, q, st⟩ := info
  cases st <;> cases tls <;>
    simp only [priv_process_socket] <;>
    first
      | simp
      | exact hsStep_hs_events_id _ _ _ _ _ (Or.inl rfl)
      | exact hsStep_hs_events_id _ _ _ _ _ (Or.inr (Or.inl rfl))
      | exact hsStep_hs_events_id _ _ _ _ _ (Or.inr (Or.inr (Or.inl rfl)))
      | exact hsStep_hs_events_id _ _ _ _ _ (Or.inr (Or.inr (Or.inr rfl)))
      | (intro ev hev; rw [hsStepNoEv_events] at hev; cases hev)
      | exact stepReady_events_id _ _ _ _

/-- A successful heartbeat ping can never abort the tick. -/
theorem tickConnBody_aborted_pingOk (io : SocketIo) (now : Nat) (r : StepOut)
    (h : io.pingOk = true) : (tickConnBody io now r).aborted = none := by
  unfold tickConnBody
  split_ifs with h1 h2 h3 h4 <;> simp_all [ConnStep.aborted]

/-- A successful heartbeat ping can never abort the tick. -/
theorem tickConn_aborted_pingOk (tls : TlsConfig) (now : Nat) (io : SocketIo)
    (info : WssInfo) (h : io.pingOk = true) :
    (tickConn tls now io info).aborted = none :=
  tickConnBody_aborted_pingOk io now _ h

theorem tickConnBody_err (io : SocketIo) (now : Nat) (r : StepOut) (e : String)
    (he : r.err = some e) (hev : r.events = [])
    (hst : r.info.statefulSocket = WebsocketStreamState.None) :
    tickConnBody io now r =
      ConnStep.drop
        [TransportEvent.TransportError r.info.id e, TransportEvent.Closed r.info.id]
        r.didWork := by
  unfold tickConnBody
  rw [if_pos hst]
  simp [errEvs, he, hev]

/-- When `priv_process_socket` returns `Err(e)` the loop body pushes a
`TransportError` event, then (the stage being `None`) pushes `Closed` and
drops the record. -/
theorem tickConn_err (tls : TlsConfig) (now : Nat) (io : SocketIo)
    (info : WssInfo) (e : String)
    (h : (priv_process_socket tls now io info).err = some e) :
    tickConn tls now io info =
      ConnStep.drop
        [TransportEvent.TransportError info.id e, TransportEvent.Closed info.id]
        (priv_process_socket tls now io info).didWork := by
  have h1 := priv_process_socket_err tls now io info e h
  have h2 := priv_process_socket_id tls now io info
  unfold tickConn
  rw [tickConnBody_err io now _ e h h1.1 h1.2, h2]

theorem tickConnBody_keep (io : SocketIo) (now : Nat) (r : StepOut)
    (i : WssInfo) (evs : List TransportEvent) (d : Bool)
    (h : tickConnBody io now r = ConnStep.keep i evs d) : i = r.info := by
  unfold tickConnBody at h
  split_ifs at h with h1 h2 h3 h4 <;> simp_all

/-- A kept record is exactly the stepped record. -/
theorem tickConn_keep (tls : TlsConfig) (now : Nat) (io : SocketIo)
    (info i : WssInfo) (evs : List TransportEvent) (d : Bool)
    (h : tickConn tls now io info = ConnStep.keep i evs d) :
    i = (priv_process_socket tls now io info).info :=
  tickConnBody_keep io now _ i evs d h

theorem tickConnBody_drop_stage (io : SocketIo) (now : Nat) (r : StepOut)
    (evs : List TransportEvent) (d : Bool)
    (h : tickConnBody io now r = ConnStep.drop evs d) :
    r.info.statefulSocket = WebsocketStreamState.None := by
  unfold tickConnBody at h
  split_ifs at h with h1 h2 h3 h4 <;>
    first
      | exact h1
      | (exfalso
         simp only [DEFAULT_HEARTBEAT_MS, DEFAULT_HEARTBEAT_WAIT_MS] at h2 h4
         omega)

/-- A dropped record has stage `None` after its step: the idle-reap branch
of the loop is unreachable because its guard requires
elapsed ≤ `DEFAULT_HEARTBEAT_MS` yet elapsed > `DEFAULT_HEARTBEAT_WAIT_MS`. -/
theorem tickConn_drop_stage (tls : TlsConfig) (now : Nat) (io : SocketIo)
    (info : WssInfo) (evs : List TransportEvent) (d : Bool)
    (h : tickConn tls now io info = ConnStep.drop evs d) :
    (priv_process_socket tls now io info).info.statefulSocket =
      WebsocketStreamState.None :=
  tickConnBody_drop_stage io now _ evs d h

theorem tickConnBody_evs_id (io : SocketIo) (now : Nat) (r : StepOut)
    (x : String) (hevs : ∀ ev ∈ r.events, eventId ev = x) (hid : r.info.id = x) :
    ∀ ev ∈ (tickConnBody io now r).evs, eventId ev = x := by
  have herr : ∀ ev ∈ errEvs r, eventId ev = x := by
    unfold errEvs
    cases r.err <;> simp_all [eventId]
  have hbase : ∀ ev ∈ r.events ++ errEvs r, eventId ev = x := by
    intro ev hev
    rcases List.mem_append.mp hev with h5 | h5
    · exact hevs ev h5
    · exact herr ev h5
  unfold tickConnBody
  split_ifs with h1 h2 h3 h4 <;> intro ev hev <;> simp only [ConnStep.evs] at hev <;>
    first
      | exact hbase ev hev
      | (rcases List.mem_append.mp hev with h5 | h5
         · rcases List.mem_append.mp h5 with h6 | h6
           · exact hevs ev h6
           · exact herr ev h6
         · have h6 : ev = TransportEvent.Closed r.info.id := by simpa using h5
           subst h6
           simp [eventId, hid])

/-- Every event pushed by the loop body for a record carries the
record's id. -/
theorem tickConn_evs_id (tls : TlsConfig) (now : Nat) (io : SocketIo)
    (info : WssInfo) :
    ∀ ev ∈ (tickConn tls now io info).evs, eventId ev = info.id :=
  tickConnBody_evs_id io now _ info.id
    (priv_process_socket_events_id tls now io info)
    (priv_process_socket_id tls now io info)

theorem processLoop_noAbort (tls : TlsConfig) (now : Nat) (io : String → SocketIo)
    (l : List (String × WssInfo)) :
    ∀ (table : List (String × WssInfo)) (evq : List TransportEvent) (dw : Bool),
    (∀ p ∈ l, (tickConn tls now (io p.1) p.2).aborted = none) →
    processLoop tls now io l table evq dw =
      ⟨table ++ keptCat tls now io l, evq ++ evsCat tls now io l,
        dw || dwAny tls now io l, none⟩ := by
  induction l with
  | nil => intro table evq dw h; simp [processLoop, keptCat, evsCat, dwAny]
  | cons p rest ih =>
    intro table evq dw h
    have hp := h p (List.mem_cons_self p rest)
    have hr : ∀ q ∈ rest, (tickConn tls now (io q.1) q.2).aborted = none :=
      fun q hq => h q (List.mem_cons_of_mem p hq)
    cases hc : tickConn tls now (io p.1) p.2 with
    | keep i evs d =>
      simp only [processLoop, hc]
      rw [ih _ _ _ hr]
      simp [keptCat, evsCat, dwAny, hc, ConnStep.kept, ConnStep.evs, ConnStep.dwOf,
        List.append_assoc, Bool.or_assoc]
    | drop evs d =>
      simp only [processLoop, hc]
      rw [ih _ _ _ hr]
      simp [keptCat, evsCat, dwAny, hc, ConnStep.kept, ConnStep.evs, ConnStep.dwOf,
        List.append_assoc, Bool.or_assoc]
    | abort evs d e =>
      rw [hc] at hp
      simp [ConnStep.aborted] at hp

theorem processLoop_table_mem (tls : TlsConfig) (now : Nat) (io : String → SocketIo)
    (l : List (String × WssInfo)) :
    ∀ table evq dw q, q ∈ (processLoop tls now io l table evq dw).table →
      q ∈ table ∨ q.1 ∈ l.map Prod.fst := by
  induction l with
  | nil =>
    intro table evq dw q hq
    simp only [processLoop] at hq
    exact Or.inl hq
  | cons p rest ih =>
    intro table evq dw q hq
    simp only [processLoop] at hq
    cases hc : tickConn tls now (io p.1) p.2 with
    | keep i evs d =>
      rw [hc] at hq
      rcases ih _ _ _ _ hq with hq2 | hq2
      · rcases List.mem_append.mp hq2 with h3 | h3
        · exact Or.inl h3
        · right
          have : q = (p.1, i) := by simpa using h3
          simp [this]
      · right; simp [hq2]
    | drop evs d =>
      rw [hc] at hq
      rcases ih _ _ _ _ hq with hq2 | hq2
      · exact Or.inl hq2
      · right; simp [hq2]
    | abort evs d e =>
      rw [hc] at hq
      exact Or.inl hq

theorem processLoop_evs_mem (tls : TlsConfig) (now : Nat) (io : String → SocketIo)
    (l : List (String × WssInfo)) :
    ∀ table evq dw ev, ev ∈ (processLoop tls now io l table evq dw).evq →
      ev ∈ evq ∨ ∃ p ∈ l, ev ∈ (tickConn tls now (io p.1) p.2).evs := by
  induction l with
  | nil =>
    intro table evq dw ev hev
    simp only [processLoop] at hev
    exact Or.inl hev
  | cons p rest ih =>
    intro table evq dw ev hev
    simp only [processLoop] at hev
    cases hc : tickConn tls now (io p.1) p.2 with
    | keep i evs d =>
      rw [hc] at hev
      rcases ih _ _ _ _ hev with hev2 | hev2
      · rcases List.mem_append.mp hev2 with h3 | h3
        · exact Or.inl h3
        · right
          exact ⟨p, List.mem_cons_self p rest, by simp [hc, ConnStep.evs, h3]⟩
      · right
        obtain ⟨q, hq, hq2⟩ := hev2
        exact ⟨q, List.mem_cons_of_mem p hq, hq2⟩
    | drop evs d =>
      rw [hc] at hev
      rcases ih _ _ _ _ hev with hev2 | hev2
      · rcases List.mem_append.mp hev2 with h3 | h3
        · exact Or.inl h3
        · right
          exact ⟨p, List.mem_cons_self p rest, by simp [hc, ConnStep.evs, h3]⟩
      · right
        obtain ⟨q, hq, hq2⟩ := hev2
        exact ⟨q, List.mem_cons_of_mem p hq, hq2⟩
    | abort evs d e =>
      rw [hc] at hev
      rcases List.mem_append.mp hev with h3 | h3
      · exact Or.inl h3
      · right
        exact ⟨p, List.mem_cons_self p rest, by simp [hc, ConnStep.evs, h3]⟩

theorem mem_keptCat (tls : TlsConfig) (now : Nat) (io : String → SocketIo) :
    ∀ (l : List (String × WssInfo)) (p : String × WssInfo) (i : WssInfo),
    p ∈ l → (tickConn tls now (io p.1) p.2).kept = some i →
    (p.1, i) ∈ keptCat tls now io l := by
  intro l
  induction l with
  | nil => intro p i hp; cases hp
  | cons q rest ih =>
    intro p i hp hk
    rcases List.mem_cons.mp hp with h1 | h1
    · subst h1
      simp only [keptCat, hk]
      simp
    · exact List.mem_append_right _ (ih p i h1 hk)

theorem keptCat_mem (tls : TlsConfig) (now : Nat) (io : String → SocketIo) :
    ∀ (l : List (String × WssInfo)) (q : String × WssInfo),
    q ∈ keptCat tls now io l →
    ∃ p, p ∈ l ∧ q.1 = p.1 ∧ (tickConn tls now (io p.1) p.2).kept = some q.2 := by
  intro l
  induction l with
  | nil => intro q hq; cases hq
  | cons p rest ih =>
    intro q hq
    simp only [keptCat] at hq
    rcases List.mem_append.mp hq with h1 | h1
    · cases hk : (tickConn tls now (io p.1) p.2).kept with
      | none => rw [hk] at h1; cases h1
      | some i =>
        rw [hk] at h1
        have : q = (p.1, i) := by simpa using h1
        subst this
        exact ⟨p, List.mem_cons_self p rest, rfl, hk⟩
    · obtain ⟨p2, hp2, hp3, hp4⟩ := ih q h1
      exact ⟨p2, List.mem_cons_of_mem p hp2, hp3, hp4⟩

theorem mem_evsCat (tls : TlsConfig) (now : Nat) (io : String → SocketIo) :
    ∀ (l : List (String × WssInfo)) (p : String × WssInfo) (ev : TransportEvent),
    p ∈ l → ev ∈ (tickConn tls now (io p.1) p.2).evs → ev ∈ evsCat tls now io l := by
  intro l
  induction l with
  | nil => intro p ev hp; cases hp
  | cons q rest ih =>
    intro p ev hp hev
    rcases List.mem_cons.mp hp with h1 | h1
    · subst h1
      exact List.mem_append_left _ hev
    · exact List.mem_append_right _ (ih p ev h1 hev)

theorem evsCat_append (tls : TlsConfig) (now : Nat) (io : String → SocketIo)
    (l1 l2 : List (String × WssInfo)) :
    evsCat tls now io (l1 ++ l2) = evsCat tls now io l1 ++ evsCat tls now io l2 := by
  induction l1 with
  | nil => simp [evsCat]
  | cons p rest ih => simp [evsCat, ih]

theorem mem_evsCat_id (tls : TlsConfig) (now : Nat) (io : String → SocketIo)
    (l : List (String × WssInfo)) (ev : TransportEvent)
    (h : ev ∈ evsCat tls now io l) :
    ∃ p, p ∈ l ∧ eventId ev = p.2.id := by
  induction l with
  | nil => cases h
  | cons p rest ih =>
    simp only [evsCat] at h
    rcases List.mem_append.mp h with h1 | h1
    · exact ⟨p, List.mem_cons_self p rest, tickConn_evs_id tls now (io p.1) p.2 ev h1⟩
    · obtain ⟨q, hq, hq2⟩ := ih h1
      exact ⟨q, List.mem_cons_of_mem p hq, hq2⟩

theorem tlookup_eq_none_iff (l : List (String × WssInfo)) (id : String) :
    tlookup l id = none ↔ ∀ q ∈ l, q.1 ≠ id := by
  induction l with
  | nil => simp [tlookup]
  | cons p rest ih =>
    obtain ⟨k, v⟩ := p
    by_cases hk : k = id
    · subst hk
      simp [tlookup]
    · simp [tlookup, hk, ih]

theorem tlookup_updateBinding_self (l : List (String × WssInfo)) (id : String)
    (f : WssInfo → WssInfo) :
    tlookup (updateBinding l id f) id = (tlookup l id).map f := by
  induction l with
  | nil => simp [updateBinding, tlookup]
  | cons p rest ih =>
    obtain ⟨k, v⟩ := p
    by_cases hk : k = id
    · simp [updateBinding, tlookup, hk]
    · simp [updateBinding, tlookup, hk, ih]

theorem tlookup_updateBinding_ne (l : List (String × WssInfo)) (id id2 : String)
    (f : WssInfo → WssInfo) (h : id2 ≠ id) :
    tlookup (updateBinding l id f) id2 = tlookup l id2 := by
  induction l with
  | nil => simp [updateBinding, tlookup]
  | cons p rest ih =>
    obtain ⟨k, v⟩ := p
    by_cases hk : k = id
    · subst hk
      simp [updateBinding, tlookup, Ne.symm h, ih]
    · by_cases hk2 : k = id2 <;> simp [updateBinding, tlookup, hk, hk2, h, ih]

/-- Full characterization of a tick with no aborting ping failure. -/
theorem process_noAbort (m : TransportWss) (t : TickInput)
    (h : ∀ p ∈ (postAccept m t).streamSockets,
      (tickConn (postAccept m t).tlsConfig t.now (t.io p.1) p.2).aborted = none) :
    process m t =
      ({ postAccept m t with
          streamSockets :=
            keptCat (postAccept m t).tlsConfig t.now t.io (postAccept m t).streamSockets,
          eventQueue := [] },
        Except.ok
          (acceptDW m t ||
            dwAny (postAccept m t).tlsConfig t.now t.io (postAccept m t).streamSockets,
          (postAccept m t).eventQueue ++
            evsCat (postAccept m t).tlsConfig t.now t.io (postAccept m t).streamSockets)) := by
  have hpa : priv_process_accept m t.accept = (postAccept m t, acceptDW m t) := rfl
  have hloop := processLoop_noAbort (postAccept m t).tlsConfig t.now t.io
    (postAccept m t).streamSockets [] (postAccept m t).eventQueue (acceptDW m t) h
  unfold process priv_process_stream_sockets
  simp only [hpa, hloop, List.nil_append]

/-- The stages one call of `priv_process_socket` can move a record to,
read off the source arm by arm: each arm installs either the parked
mid-handshake stage, the completed stage, or (on error / close /
drain) `None`. -/
def codeSuccessors (tls : TlsConfig) : WebsocketStreamState → List WebsocketStreamState
  | WebsocketStreamState.None => [WebsocketStreamState.None]
  | WebsocketStreamState.Connecting =>
    match tls with
    | TlsConfig.Unencrypted =>
      [WebsocketStreamState.None, WebsocketStreamState.WsMidHandshake,
        WebsocketStreamState.ReadyWs]
    | _ =>
      [WebsocketStreamState.None, WebsocketStreamState.TlsMidHandshake,
        WebsocketStreamState.TlsReady]
  | WebsocketStreamState.ConnectingSrv =>
    match tls with
    | TlsConfig.Unencrypted =>
      [WebsocketStreamState.None, WebsocketStreamState.WsSrvMidHandshake,
        WebsocketStreamState.ReadyWs]
    | _ =>
      [WebsocketStreamState.None, WebsocketStreamState.TlsSrvMidHandshake,
        WebsocketStreamState.TlsSrvReady]
  | WebsocketStreamState.TlsMidHandshake =>
    [WebsocketStreamState.None, WebsocketStreamState.TlsMidHandshake,
      WebsocketStreamState.TlsReady]
  | WebsocketStreamState.TlsSrvMidHandshake =>
    [WebsocketStreamState.None, WebsocketStreamState.TlsSrvMidHandshake,
      WebsocketStreamState.TlsSrvReady]
  | WebsocketStreamState.TlsReady =>
    [WebsocketStreamState.None, WebsocketStreamState.WssMidHandshake,
      WebsocketStreamState.ReadyWss]
  | WebsocketStreamState.TlsSrvReady =>
    [WebsocketStreamState.None, WebsocketStreamState.WssSrvMidHandshake,
      WebsocketStreamState.ReadyWss]
  | WebsocketStreamState.WsMidHandshake =>
    [WebsocketStreamState.None, WebsocketStreamState.WsMidHandshake,
      WebsocketStreamState.ReadyWs]
  | WebsocketStreamState.WsSrvMidHandshake =>
    [WebsocketStreamState.None, WebsocketStreamState.WsSrvMidHandshake,
      WebsocketStreamState.ReadyWs]
  | WebsocketStreamState.WssMidHandshake =>
    [WebsocketStreamState.None, WebsocketStreamState.WssMidHandshake,
      WebsocketStreamState.ReadyWss]
  | WebsocketStreamState.WssSrvMidHandshake =>
    [WebsocketStreamState.None, WebsocketStreamState.WssSrvMidHandshake,
      WebsocketStreamState.ReadyWss]
  | WebsocketStreamState.ReadyWs =>
    [WebsocketStreamState.None, WebsocketStreamState.ReadyWs]
  | WebsocketStreamState.ReadyWss =>
    [WebsocketStreamState.None, WebsocketStreamState.ReadyWss]

theorem stepReadyRead_stage (ready : WebsocketStreamState) (now : Nat)
    (io : SocketIo) (i : WssInfo) (msgs : List (List Nat)) :
    (stepReadyRead ready now io i msgs).info.statefulSocket = i.statefulSocket ∨
    (stepReadyRead ready now io i msgs).info.statefulSocket = ready := by
  cases hr : io.read with
  | wouldBlock => right; simp [stepReadyRead, hr]
  | connectionClosed => left; simp [stepReadyRead, hr]
  | ioErr e => left; simp [stepReadyRead, hr]
  | otherErr e => left; simp [stepReadyRead, hr]
  | message m => cases m <;> right <;> simp [stepReadyRead, hr]

theorem stepReady_stage (ready : WebsocketStreamState) (now : Nat)
    (io : SocketIo) (base : WssInfo) :
    (stepReady ready now io base).info.statefulSocket = base.statefulSocket ∨
    (stepReady ready now io base).info.statefulSocket = ready := by
  cases hw : io.writeFailAt with
  | none =>
    simp only [stepReady, hw]
    exact stepReadyRead_stage _ _ _ _ _
  | some ke =>
    rcases ke with ⟨k, e⟩
    by_cases hk : k < base.sendQueue.length
    · left; simp [stepReady, hw, hk]
    · simp only [stepReady, hw, if_neg hk]
      exact stepReadyRead_stage _ _ _ _ _

/-- One call of `priv_process_socket` performs at most one stage
transition: the new stage is always among the code's one-call successors
of the old stage. -/
theorem priv_process_socket_stage_mem (tls : TlsConfig) (now : Nat)
    (io : SocketIo) (info : WssInfo) :
    (priv_process_socket tls now io info).info.statefulSocket ∈
      codeSuccessors tls info.statefulSocket := by
  obtain ⟨id, url, lm, q, st⟩ := info
  cases st <;> cases tls <;>
    simp only [priv_process_socket, codeSuccessors] <;>
    first
      | (simp
         done)
      | (cases hhs : io.hs <;>
          simp [hsStep, hsStepNoEv, priv_tls_handshake, priv_tls_srv_handshake,
            priv_ws_handshake, priv_wss_handshake, priv_ws_srv_handshake,
            priv_wss_srv_handshake] <;>
          done)
      | (rcases stepReady_stage _ now io _ with h2 | h2 <;> rw [h2] <;> simp)

theorem stepReadyRead_written_queue (ready : WebsocketStreamState) (now : Nat)
    (io : SocketIo) (i : WssInfo) (msgs : List (List Nat)) :
    (stepReadyRead ready now io i msgs).written = msgs ∧
    (stepReadyRead ready now io i msgs).info.sendQueue = i.sendQueue := by
  cases hr : io.read with
  | wouldBlock => simp [stepReadyRead, hr]
  | connectionClosed => simp [stepReadyRead, hr]
  | ioErr e => simp [stepReadyRead, hr]
  | otherErr e => simp [stepReadyRead, hr]
  | message m => cases m <;> simp [stepReadyRead, hr]

/-- A failed queued write on a ready socket: the queue was drained, only
the frames before the failure were written, the rest are lost, the error
propagates, and the stage stays `None`. -/
theorem priv_process_socket_ready_writeFail (tls : TlsConfig) (now : Nat)
    (io : SocketIo) (info : WssInfo) (k : Nat) (e : String)
    (hst : info.statefulSocket = WebsocketStreamState.ReadyWs ∨
           info.statefulSocket = WebsocketStreamState.ReadyWss)
    (hw : io.writeFailAt = some (k, e)) (hk : k < info.sendQueue.length) :
    (priv_process_socket tls now io info).written = info.sendQueue.take k ∧
    (priv_process_socket tls now io info).info.sendQueue = [] ∧
    (priv_process_socket tls now io info).err = some e ∧
    (priv_process_socket tls now io info).info.statefulSocket =
      WebsocketStreamState.None := by
  obtain ⟨id, url, lm, q, st⟩ := info
  simp only at hst hk
  rcases hst with h | h <;> subst h <;>
    simp [priv_process_socket, stepReady, hw, hk]

/-- With no write failure, a ready socket writes exactly the queued frames
in insertion order and its queue ends the tick empty. -/
theorem priv_process_socket_ready_writeOk (tls : TlsConfig) (now : Nat)
    (io : SocketIo) (info : WssInfo)
    (hst : info.statefulSocket = WebsocketStreamState.ReadyWs ∨
           info.statefulSocket = WebsocketStreamState.ReadyWss)
    (hw : io.writeFailAt = none) :
    (priv_process_socket tls now io info).written = info.sendQueue ∧
    (priv_process_socket tls now io info).info.sendQueue = [] := by
  obtain ⟨id, url, lm, q, st⟩ := info
  simp only at hst
  rcases hst with h | h <;> subst h <;>
    simp only [priv_process_socket, stepReady, hw] <;>
    exact stepReadyRead_written_queue _ _ _ _ _

/-- Characterization of `send`'s fold over the id list: each occurrence of
a tracked id appends one copy of the payload to that record's queue. -/
theorem tlookup_send_fold (payload : List Nat) :
    ∀ (ids : List String) (tbl : List (String × WssInfo)) (id : String),
    tlookup (ids.foldl (fun t i2 => sendToId t i2 payload) tbl) id =
      (tlookup tbl id).map
        (fun i => { i with
          sendQueue := i.sendQueue ++ List.replicate (countId ids id) payload }) := by
  intro ids
  induction ids with
  | nil =>
    intro tbl id
    simp only [List.foldl_nil, countId, List.replicate_zero, List.append_nil]
    cases tlookup tbl id <;> simp
  | cons c rest ih =>
    intro tbl id
    simp only [List.foldl_cons]
    rw [ih]
    by_cases hc : c = id
    · subst hc
      rw [show sendToId tbl c payload =
          updateBinding tbl c (fun i => { i with sendQueue := i.sendQueue ++ [payload] })
          from rfl]
      rw [tlookup_updateBinding_self]
      cases tlookup tbl c <;>
        simp [countId, List.replicate_succ, List.append_assoc]
    · rw [show sendToId tbl c payload =
          updateBinding tbl c (fun i => { i with sendQueue := i.sendQueue ++ [payload] })
          from rfl]
      rw [tlookup_updateBinding_ne _ _ _ _ (fun hh => hc hh.symm)]
      simp [countId, hc]

/-- Two entries of a table with `Nodup` keys and the same key are equal. -/
theorem nodup_keys_eq (l : List (String × WssInfo))
    (h : (l.map Prod.fst).Nodup) (p q : String × WssInfo)
    (hp : p ∈ l) (hq : q ∈ l) (hk : p.1 = q.1) : p = q := by
  induction l with
  | nil => cases hp
  | cons a rest ih =>
    simp only [List.map_cons, List.nodup_cons] at h
    rcases List.mem_cons.mp hp with h1 | h1 <;> rcases List.mem_cons.mp hq with h2 | h2
    · rw [h1, h2]
    · exfalso
      apply h.1
      rw [← h1, hk]
      exact List.mem_map_of_mem Prod.fst h2
    · exfalso
      apply h.1
      rw [← h2, ← hk]
      exact List.mem_map_of_mem Prod.fst h1
    · exact ih h.2 h1 h2

/-- The table and (on success) the returned events of a tick, in terms of
the socket loop. -/
theorem process_parts (m : TransportWss) (t : TickInput) :
    (process m t).1.streamSockets =
      (processLoop (postAccept m t).tlsConfig t.now t.io (postAccept m t).streamSockets
        [] (postAccept m t).eventQueue (acceptDW m t)).table ∧
    (∀ dw evs, (process m t).2 = Except.ok (dw, evs) →
      evs = (processLoop (postAccept m t).tlsConfig t.now t.io
        (postAccept m t).streamSockets [] (postAccept m t).eventQueue (acceptDW m t)).evq) := by
  have hpa : priv_process_accept m t.accept = (postAccept m t, acceptDW m t) := rfl
  unfold process priv_process_stream_sockets
  simp only [hpa]
  cases herr : (processLoop (postAccept m t).tlsConfig t.now t.io
      (postAccept m t).streamSockets [] (postAccept m t).eventQueue (acceptDW m t)).err with
  | none =>
    constructor
    · rfl
    · intro dw evs h
      have := (Except.ok.injEq _ _).mp h
      exact (Prod.mk.injEq _ _ _ _).mp this.symm |>.2
  | some e =>
    constructor
    · rfl
    · intro dw evs h
      cases h

/-! ## Claims -/

/-- C10: `bind` is atomic on error: if the binder returns an error, `bind`
returns that error and the manager — in particular its previously
installed acceptor, including the initial not-initialized error state — is
left unchanged; on success the new acceptor replaces any previous one and
`bind` returns its argument url unchanged. -/
theorem claim_C10_bind_atomic :
    (∀ (m : TransportWss) (e : String) (url : String),
      bind m (Except.error e) url = (m, Except.error e)) ∧
    (∀ (m : TransportWss) (a : Nat) (url : String),
      bind m (Except.ok a) url =
        ({ m with acceptor := Except.ok a }, Except.ok url)) ∧
    TransportWss.new.acceptor = Except.error "acceptor not initialized" :=
  ⟨fun _ _ _ => rfl, fun _ _ _ => rfl, rfl⟩

/-- C5: if writing the k-th drained outbound frame fails on a Ready
connection, the queue was drained before the writes began: only the first
k frames were written, the unsent suffix is not restored (the record's
queue ends empty), the error propagates and the record is left at stage
`None`. -/
theorem claim_C5_write_failure_loses_queue (tls : TlsConfig) (now : Nat)
    (io : SocketIo) (info : WssInfo) (k : Nat) (e : String)
    (hst : info.statefulSocket = WebsocketStreamState.ReadyWs ∨
           info.statefulSocket = WebsocketStreamState.ReadyWss)
    (hw : io.writeFailAt = some (k, e)) (hk : k < info.sendQueue.length) :
    (priv_process_socket tls now io info).written = info.sendQueue.take k ∧
    (priv_process_socket tls now io info).info.sendQueue = [] ∧
    (priv_process_socket tls now io info).err = some e ∧
    (priv_process_socket tls now io info).info.statefulSocket =
      WebsocketStreamState.None :=
  priv_process_socket_ready_writeFail tls now io info k e hst hw hk

/-- Fixture for the C5 witness: a Ready wss record with three queued
frames whose second write fails. -/
def C5io : SocketIo :=
  ⟨HsResult.wouldBlock, some (1, "werr"), ReadResult.wouldBlock, true, "p"⟩

/-- Fixture for the C5 witness. -/
def C5info : WssInfo := ⟨"ws1", "u", 0, [[1], [2], [3]], WebsocketStreamState.ReadyWss⟩

/-- C5 witness: concrete loss of the unsent suffix. -/
theorem claim_C5_write_failure_loses_queue_witness :
    C5info.statefulSocket = WebsocketStreamState.ReadyWss ∧
    C5io.writeFailAt = some (1, "werr") ∧
    (1 : Nat) < C5info.sendQueue.length ∧
    ((priv_process_socket TlsConfig.FakeServer 0 C5io C5info).written = [[1]] ∧
      (priv_process_socket TlsConfig.FakeServer 0 C5io C5info).info.sendQueue = [] ∧
      (priv_process_socket TlsConfig.FakeServer 0 C5io C5info).err = some "werr") := by
  refine ⟨rfl, rfl, by decide, ?_⟩
  have h := claim_C5_write_failure_loses_queue TlsConfig.FakeServer 0 C5io C5info 1
    "werr" (Or.inr rfl) rfl (by decide)
  exact ⟨h.1, h.2.1, h.2.2.1⟩

/-- C6: `send(ids, payload)` returns `Ok` and appends the payload once per
occurrence of each tracked id, silently skipping unknown ids (their and
all other lookups are unchanged except the listed ones); while the
connection is Ready and no write fails, a tick writes exactly the queued
frames in insertion order. -/
theorem claim_C6_send_appends_in_order :
    (∀ (m : TransportWss) (ids : List String) (payload : List Nat),
      (send m ids payload).2 = Except.ok ()) ∧
    (∀ (m : TransportWss) (ids : List String) (payload : List Nat) (id : String),
      tlookup (send m ids payload).1.streamSockets id =
        (tlookup m.streamSockets id).map
          (fun i => { i with
            sendQueue := i.sendQueue ++ List.replicate (countId ids id) payload })) ∧
    (∀ (tls : TlsConfig) (now : Nat) (io : SocketIo) (info : WssInfo),
      (info.statefulSocket = WebsocketStreamState.ReadyWs ∨
       info.statefulSocket = WebsocketStreamState.ReadyWss) →
      io.writeFailAt = none →
      (priv_process_socket tls now io info).written = info.sendQueue) := by
  refine ⟨fun _ _ _ => rfl, fun m ids payload id => ?_, fun tls now io info hst hw =>
    (priv_process_socket_ready_writeOk tls now io info hst hw).1⟩
  exact tlookup_send_fold payload ids m.streamSockets id

/-- Fixture for the C6 witness. -/
def C6info : WssInfo := ⟨"ws1", "u", 0, [[7]], WebsocketStreamState.ReadyWs⟩

/-- Fixture for the C6 witness. -/
def C6m : TransportWss :=
  ⟨TlsConfig.FakeServer, [("ws1", C6info)], [], 1,
    Except.error "acceptor not initialized"⟩

/-- C6 witness: sending to `["ws1", "nope", "ws1"]` appends twice to the
tracked id, skips the unknown one, and a clean Ready tick writes the queue
in order. -/
theorem claim_C6_send_appends_in_order_witness :
    (send C6m ["ws1", "nope", "ws1"] [9]).2 = Except.ok () ∧
    tlookup (send C6m ["ws1", "nope", "ws1"] [9]).1.streamSockets "ws1" =
      some ⟨"ws1", "u", 0, [[7], [9], [9]], WebsocketStreamState.ReadyWs⟩ ∧
    tlookup (send C6m ["ws1", "nope", "ws1"] [9]).1.streamSockets "nope" = none ∧
    C6info.statefulSocket = WebsocketStreamState.ReadyWs ∧
    (⟨HsResult.wouldBlock, none, ReadResult.wouldBlock, true, "p"⟩ : SocketIo).writeFailAt
      = none ∧
    (priv_process_socket TlsConfig.FakeServer 0
      ⟨HsResult.wouldBlock, none, ReadResult.wouldBlock, true, "p"⟩ C6info).written
      = [[7]] := by
  refine ⟨claim_C6_send_appends_in_order.1 C6m ["ws1", "nope", "ws1"] [9], ?_, ?_, rfl, rfl, ?_⟩
  · rw [claim_C6_send_appends_in_order.2.1 C6m ["ws1", "nope", "ws1"] [9] "ws1"]
    rfl
  · rw [claim_C6_send_appends_in_order.2.1 C6m ["ws1", "nope", "ws1"] [9] "nope"]
    rfl
  · exact claim_C6_send_appends_in_order.2.2 TlsConfig.FakeServer 0 _ C6info
      (Or.inl rfl) rfl

/-- C7: every crypto operation of the fake crypto system rejects a
wrong-sized buffer synchronously with the documented error kind:
`sign_seed_keypair` checks seed, public key, secret key in that order;
the hashes check the output buffer; `pwhash` checks hash then salt;
`sign` checks signature then secret key; `sign_verify` checks signature
then public key; `sign_keypair` checks public then secret key.  Outputs
are only produced on `Ok` (all operations return `Except`). -/
theorem claim_C7_size_mismatch_errors :
    (∀ seed pk sk : List Nat, seed.length ≠ FakeCryptoSystem.sign_seed_bytes →
      FakeCryptoSystem.sign_seed_keypair seed pk sk =
        Except.error CryptoError.BadSeedSize) ∧
    (∀ seed pk sk : List Nat, seed.length = FakeCryptoSystem.sign_seed_bytes →
      pk.length ≠ FakeCryptoSystem.sign_public_key_bytes →
      FakeCryptoSystem.sign_seed_keypair seed pk sk =
        Except.error CryptoError.BadPublicKeySize) ∧
    (∀ seed pk sk : List Nat, seed.length = FakeCryptoSystem.sign_seed_bytes →
      pk.length = FakeCryptoSystem.sign_public_key_bytes →
      sk.length ≠ FakeCryptoSystem.sign_secret_key_bytes →
      FakeCryptoSystem.sign_seed_keypair seed pk sk =
        Except.error CryptoError.BadSecretKeySize) ∧
    (∀ (digest : List Nat → List Nat) (hash data : List Nat),
      hash.length ≠ FakeCryptoSystem.hash_sha256_bytes →
      FakeCryptoSystem.hash_sha256 digest hash data =
        Except.error CryptoError.BadHashSize) ∧
    (∀ (digest : List Nat → List Nat) (hash data : List Nat),
      hash.length ≠ FakeCryptoSystem.hash_sha512_bytes →
      FakeCryptoSystem.hash_sha512 digest hash data =
        Except.error CryptoError.BadHashSize) ∧
    (∀ hash pw salt : List Nat, hash.length ≠ FakeCryptoSystem.pwhash_bytes →
      FakeCryptoSystem.pwhash hash pw salt = Except.error CryptoError.BadHashSize) ∧
    (∀ hash pw salt : List Nat, hash.length = FakeCryptoSystem.pwhash_bytes →
      salt.length ≠ FakeCryptoSystem.pwhash_salt_bytes →
      FakeCryptoSystem.pwhash hash pw salt = Except.error CryptoError.BadSaltSize) ∧
    (∀ sig msg sk : List Nat, sig.length ≠ FakeCryptoSystem.sign_bytes →
      FakeCryptoSystem.sign sig msg sk =
        Except.error CryptoError.BadSignatureSize) ∧
    (∀ sig msg sk : List Nat, sig.length = FakeCryptoSystem.sign_bytes →
      sk.length ≠ FakeCryptoSystem.sign_secret_key_bytes →
      FakeCryptoSystem.sign sig msg sk =
        Except.error CryptoError.BadSecretKeySize) ∧
    (∀ sig msg pk : List Nat, sig.length ≠ FakeCryptoSystem.sign_bytes →
      FakeCryptoSystem.sign_verify sig msg pk =
        Except.error CryptoError.BadSignatureSize) ∧
    (∀ sig msg pk : List Nat, sig.length = FakeCryptoSystem.sign_bytes →
      pk.length ≠ FakeCryptoSystem.sign_public_key_bytes →
      FakeCryptoSystem.sign_verify sig msg pk =
        Except.error CryptoError.BadPublicKeySize) ∧
    (∀ rs pk sk : List Nat, pk.length ≠ FakeCryptoSystem.sign_public_key_bytes →
      FakeCryptoSystem.sign_keypair rs pk sk =
        Except.error CryptoError.BadPublicKeySize) ∧
    (∀ rs pk sk : List Nat, pk.length = FakeCryptoSystem.sign_public_key_bytes →
      sk.length ≠ FakeCryptoSystem.sign_secret_key_bytes →
      FakeCryptoSystem.sign_keypair rs pk sk =
        Except.error CryptoError.BadSecretKeySize) := by
  refine ⟨?_, ?_, ?_, ?_, ?_, ?_, ?_, ?_, ?_, ?_, ?_, ?_, ?_⟩ <;>
    intros <;>
    simp_all [FakeCryptoSystem.sign_seed_keypair, FakeCryptoSystem.sign_keypair,
      FakeCryptoSystem.hash_sha256, FakeCryptoSystem.hash_sha512,
      FakeCryptoSystem.pwhash, FakeCryptoSystem.sign, FakeCryptoSystem.sign_verify]

/-- C7 witness: spec scenario S5 plus one concrete instance of every other
size check (off-by-one buffers). -/
theorem claim_C7_size_mismatch_errors_witness :
    FakeCryptoSystem.sign_seed_keypair (List.replicate 9 0) (List.replicate 32 0)
      (List.replicate 8 0) = Except.error CryptoError.BadSeedSize ∧
    FakeCryptoSystem.sign_seed_keypair (List.replicate 8 0) (List.replicate 31 0)
      (List.replicate 8 0) = Except.error CryptoError.BadPublicKeySize ∧
    FakeCryptoSystem.sign_seed_keypair (List.replicate 8 0) (List.replicate 32 0)
      (List.replicate 7 0) = Except.error CryptoError.BadSecretKeySize ∧
    FakeCryptoSystem.hash_sha256 (fun _ => List.replicate 32 1) (List.replicate 31 0)
      [] = Except.error CryptoError.BadHashSize ∧
    FakeCryptoSystem.hash_sha512 (fun _ => List.replicate 64 1) (List.replicate 65 0)
      [] = Except.error CryptoError.BadHashSize ∧
    FakeCryptoSystem.pwhash (List.replicate 17 0) [] (List.replicate 8 0) =
      Except.error CryptoError.BadHashSize ∧
    FakeCryptoSystem.pwhash (List.replicate 16 0) [] (List.replicate 7 0) =
      Except.error CryptoError.BadSaltSize ∧
    FakeCryptoSystem.sign (List.replicate 15 0) [] (List.replicate 8 0) =
      Except.error CryptoError.BadSignatureSize ∧
    FakeCryptoSystem.sign (List.replicate 16 0) [] (List.replicate 9 0) =
      Except.error CryptoError.BadSecretKeySize ∧
    FakeCryptoSystem.sign_verify (List.replicate 17 0) [] (List.replicate 32 0) =
      Except.error CryptoError.BadSignatureSize ∧
    FakeCryptoSystem.sign_verify (List.replicate 16 0) [] (List.replicate 33 0) =
      Except.error CryptoError.BadPublicKeySize ∧
    FakeCryptoSystem.sign_keypair (List.replicate 8 0) (List.replicate 33 0)
      (List.replicate 8 0) = Except.error CryptoError.BadPublicKeySize ∧
    FakeCryptoSystem.sign_keypair (List.replicate 8 0) (List.replicate 32 0)
      (List.replicate 9 0) = Except.error CryptoError.BadSecretKeySize := by
  obtain ⟨h1, h2, h3, h4, h5, h6, h7, h8, h9, h10, h11, h12, h13⟩ :=
    claim_C7_size_mismatch_errors
  exact ⟨h1 _ _ _ (by decide), h2 _ _ _ (by decide) (by decide),
    h3 _ _ _ (by decide) (by decide) (by decide), h4 _ _ _ (by decide),
    h5 _ _ _ (by decide), h6 _ _ _ (by decide), h7 _ _ _ (by decide) (by decide),
    h8 _ _ _ (by decide), h9 _ _ _ (by decide) (by decide), h10 _ _ _ (by decide),
    h11 _ _ _ (by decide) (by decide), h12 _ _ _ (by decide),
    h13 _ _ _ (by decide) (by decide)⟩

/-- Fixture for C1: a Ready wss connection idle for 6000 ms. -/
def C1info : WssInfo := ⟨"ws1", "wss://x", 0, [], WebsocketStreamState.ReadyWss⟩

/-- Fixture for C1. -/
def C1m : TransportWss :=
  ⟨TlsConfig.FakeServer, [("ws1", C1info)], [], 1,
    Except.error "acceptor not initialized"⟩

/-- Fixture for C1: the tick happens at t = 6000 ms with a quiet socket. -/
def C1t : TickInput :=
  ⟨6000, Except.error "no inbound",
    fun _ => ⟨HsResult.wouldBlock, none, ReadResult.wouldBlock, true, "p"⟩⟩

/-- C1 (code-bug exhibit): a Ready connection whose last activity lies
6000 ms in the past (beyond `T_dead` = `DEFAULT_HEARTBEAT_WAIT_MS` = 5000)
is ticked.  The claim requires `Closed("ws1")`, stage `None` and removal
from `connection_id_list`; instead the tick returns no events and keeps
the record, still `ReadyWss`, in the table — the idle-reap branch sits in
an `else if` behind the heartbeat check (elapsed > 5000 implies elapsed >
2000), so it can never run. -/
theorem claim_C1_idle_reap_never_fires :
    6000 - C1info.lastMsg > DEFAULT_HEARTBEAT_WAIT_MS ∧
    C1info.statefulSocket = WebsocketStreamState.ReadyWss ∧
    (process C1m C1t).2 = Except.ok (false, []) ∧
    connection_id_list (process C1m C1t).1 = ["ws1"] ∧
    tlookup (process C1m C1t).1.streamSockets "ws1" = some C1info :=
  ⟨by decide, rfl, rfl, rfl, rfl⟩

/-- Fixture for the C2 counterexample. -/
def C2infoA : WssInfo := ⟨"wsA", "wss://a", 0, [], WebsocketStreamState.ReadyWss⟩

/-- Fixture for the C2 counterexample. -/
def C2infoB : WssInfo := ⟨"wsB", "wss://b", 0, [], WebsocketStreamState.ReadyWss⟩

/-- Fixture for the C2 counterexample: two Ready connections. -/
def C2m : TransportWss :=
  ⟨TlsConfig.FakeServer, [("wsA", C2infoA), ("wsB", C2infoB)], [], 1,
    Except.error "acceptor not initialized"⟩

/-- Fixture for the C2 counterexample: at t = 3000 both records are past
the heartbeat threshold; the ping write on `wsA`'s socket fails, `wsB`'s
socket is healthy. -/
def C2t : TickInput :=
  ⟨3000, Except.error "no inbound",
    fun id =>
      if id = "wsA" then
        ⟨HsResult.wouldBlock, none, ReadResult.wouldBlock, false, "ping io error"⟩
      else ⟨HsResult.wouldBlock, none, ReadResult.wouldBlock, true, "p"⟩⟩

/-- C2 counterexample: an I/O error on one connection's socket (the
heartbeat ping write on `wsA`) makes `process` return `Err` instead of an
event, and the healthy sibling `wsB` — which would have produced work —
is dropped from the connection table by the aborted tick. -/
theorem claim_C2_counterexample :
    tlookup C2m.streamSockets "wsB" = some C2infoB ∧
    (C2t.io "wsB").pingOk = true ∧
    (process C2m C2t).2 = Except.error "ping io error" ∧
    (process C2m C2t).1.streamSockets = [] ∧
    tlookup (process C2m C2t).1.streamSockets "wsB" = none :=
  ⟨rfl, rfl, rfl, rfl, rfl⟩

/-- C2 (amended): failures during a connection's own state-machine step
are isolated and captured: whenever every socket's heartbeat ping write
succeeds, `process` returns `Ok` (never `Err`); each connection whose step
keeps it alive stays in the table regardless of other connections'
failures; every event its step produces is delivered in the returned
vector; and a step `Err` is delivered as a `TransportError` event for that
id.  (Only a failed heartbeat ping write — the `?` at the ping sites —
escapes `process` as `Err` and drops the drained-but-unprocessed
records, as the counterexample shows.) -/
theorem claim_C2_amended_per_connection_isolation (m : TransportWss) (t : TickInput)
    (hping : ∀ id, (t.io id).pingOk = true) :
    (∃ dw evs, (process m t).2 = Except.ok (dw, evs)) ∧
    (∀ id info, (id, info) ∈ (postAccept m t).streamSockets →
      (∀ i2, (tickConn (postAccept m t).tlsConfig t.now (t.io id) info).kept = some i2 →
        (id, i2) ∈ (process m t).1.streamSockets) ∧
      (∀ ev ∈ (tickConn (postAccept m t).tlsConfig t.now (t.io id) info).evs,
        ∀ dw evs, (process m t).2 = Except.ok (dw, evs) → ev ∈ evs) ∧
      (∀ e, (priv_process_socket (postAccept m t).tlsConfig t.now (t.io id) info).err
          = some e →
        ∀ dw evs, (process m t).2 = Except.ok (dw, evs) →
          TransportEvent.TransportError info.id e ∈ evs)) := by
  have hab : ∀ p ∈ (postAccept m t).streamSockets,
      (tickConn (postAccept m t).tlsConfig t.now (t.io p.1) p.2).aborted = none :=
    fun p _ => tickConn_aborted_pingOk _ _ _ _ (hping p.1)
  have hp := process_noAbort m t hab
  constructor
  · exact ⟨_, _, by rw [hp]⟩
  · intro id info hmem
    refine ⟨?_, ?_, ?_⟩
    · intro i2 hkept
      have : (id, i2) ∈ keptCat (postAccept m t).tlsConfig t.now t.io
          (postAccept m t).streamSockets :=
        mem_keptCat _ _ _ _ (id, info) i2 hmem hkept
      rw [hp]
      exact this
    · intro ev hev dw evs hok
      rw [hp] at hok
      have hevs : evs = (postAccept m t).eventQueue ++
          evsCat (postAccept m t).tlsConfig t.now t.io (postAccept m t).streamSockets := by
        have := (Except.ok.injEq _ _).mp hok
        exact ((Prod.mk.injEq _ _ _ _).mp this).2.symm
      rw [hevs]
      exact List.mem_append_right _
        (mem_evsCat _ _ _ _ (id, info) ev hmem hev)
    · intro e herr dw evs hok
      have hdrop := tickConn_err (postAccept m t).tlsConfig t.now (t.io id) info e herr
      rw [hp] at hok
      have hevs : evs = (postAccept m t).eventQueue ++
          evsCat (postAccept m t).tlsConfig t.now t.io (postAccept m t).streamSockets := by
        have := (Except.ok.injEq _ _).mp hok
        exact ((Prod.mk.injEq _ _ _ _).mp this).2.symm
      rw [hevs]
      refine List.mem_append_right _
        (mem_evsCat _ _ _ _ (id, info) _ hmem ?_)
      rw [hdrop]
      simp [ConnStep.evs, priv_process_socket_id]

/-- Fixture for the C2-amended witness: the record whose read fails. -/
def C2winfo : WssInfo := ⟨"wsC", "wss://c", 0, [], WebsocketStreamState.ReadyWss⟩

/-- Fixture for the C2-amended witness: the healthy sibling. -/
def C2winfoD : WssInfo := ⟨"wsD", "wss://d", 0, [], WebsocketStreamState.ReadyWss⟩

/-- Fixture for the C2-amended witness. -/
def C2wm : TransportWss :=
  ⟨TlsConfig.FakeServer, [("wsC", C2winfo), ("wsD", C2winfoD)], [], 1,
    Except.error "acceptor not initialized"⟩

/-- Fixture for the C2-amended witness: `wsC`'s read errors fatally, all
pings fine. -/
def C2wt : TickInput :=
  ⟨0, Except.error "no inbound",
    fun id =>
      if id = "wsC" then
        ⟨HsResult.wouldBlock, none, ReadResult.ioErr "conn reset", true, "p"⟩
      else ⟨HsResult.wouldBlock, none, ReadResult.wouldBlock, true, "p"⟩⟩

/-- C2 witness: with all pings healthy, a fatal read error on `wsC` is
captured as events while the sibling `wsD` survives the tick. -/
theorem claim_C2_amended_per_connection_isolation_witness :
    (∀ id, (C2wt.io id).pingOk = true) ∧
    (∃ dw evs, (process C2wm C2wt).2 = Except.ok (dw, evs)) ∧
    ("wsD", C2winfoD) ∈ (process C2wm C2wt).1.streamSockets ∧
    (∀ dw evs, (process C2wm C2wt).2 = Except.ok (dw, evs) →
      TransportEvent.TransportError "wsC" "conn reset" ∈ evs) := by
  have hping : ∀ id, (C2wt.io id).pingOk = true := by
    intro id
    simp only [C2wt]
    by_cases h : id = "wsC" <;> simp [h]
  have h := claim_C2_amended_per_connection_isolation C2wm C2wt hping
  refine ⟨hping, h.1, ?_, ?_⟩
  · have h2 := (h.2 "wsD" C2winfoD (by decide)).1
    exact h2 C2winfoD rfl
  · intro dw evs hok
    have h3 := (h.2 "wsC" C2winfo (by decide)).2.2 "conn reset" rfl dw evs hok
    exact h3

/-- Fixture for the C4 counterexample: a record suspended in the TLS
handshake whose driver completes this tick. -/
def C4info : WssInfo := ⟨"ws1", "wss://x", 0, [], WebsocketStreamState.TlsMidHandshake⟩

/-- Fixture for the C4 counterexample. -/
def C4m : TransportWss :=
  ⟨TlsConfig.FakeServer, [("ws1", C4info)], [], 1,
    Except.error "acceptor not initialized"⟩

/-- Fixture for the C4 counterexample. -/
def C4t : TickInput :=
  ⟨0, Except.error "no inbound",
    fun _ => ⟨HsResult.complete, none, ReadResult.wouldBlock, true, "p"⟩⟩

/-- C4 counterexample: in the tick where a `TlsMidHandshake` record's TLS
handshake completes, the record ends the tick parked at `TlsReady` — not
at any WebSocket-handshake stage — and no event is emitted; the WebSocket
handshake is not initiated within that same tick. -/
theorem claim_C4_counterexample :
    (process C4m C4t).2 = Except.ok (false, []) ∧
    tlookup (process C4m C4t).1.streamSockets "ws1" =
      some ⟨"ws1", "wss://x", 0, [], WebsocketStreamState.TlsReady⟩ ∧
    WebsocketStreamState.TlsReady ≠ WebsocketStreamState.WssMidHandshake ∧
    WebsocketStreamState.TlsReady ≠ WebsocketStreamState.ReadyWss ∧
    WebsocketStreamState.TlsReady ≠ WebsocketStreamState.WsMidHandshake ∧
    WebsocketStreamState.TlsReady ≠ WebsocketStreamState.ReadyWs :=
  ⟨rfl, rfl, by decide, by decide, by decide, by decide⟩

/-- C4 (amended): on every tick each surviving record's state is the
result of exactly one `priv_process_socket` call, and one such call moves
the stage only to one of its one-call successors; a record whose TLS
handshake completes is parked at `TlsReady` with no event, and the
WebSocket handshake runs on the next tick: processing a record already at
`TlsReady` performs the whole WebSocket client call within that step
(here completing straight to `ReadyWss` with its `ConnectResult`). -/
theorem claim_C4_amended_one_transition_per_tick :
    (∀ (tls : TlsConfig) (now : Nat) (io : SocketIo) (info : WssInfo),
      (priv_process_socket tls now io info).info.statefulSocket ∈
        codeSuccessors tls info.statefulSocket) ∧
    (∀ (tls : TlsConfig) (now : Nat) (io : SocketIo) (info : WssInfo),
      info.statefulSocket = WebsocketStreamState.TlsMidHandshake →
      io.hs = HsResult.complete →
      (priv_process_socket tls now io info).info.statefulSocket =
        WebsocketStreamState.TlsReady ∧
      (priv_process_socket tls now io info).events = []) ∧
    (∀ (tls : TlsConfig) (now : Nat) (io : SocketIo) (info : WssInfo),
      info.statefulSocket = WebsocketStreamState.TlsReady →
      io.hs = HsResult.complete →
      (priv_process_socket tls now io info).info.statefulSocket =
        WebsocketStreamState.ReadyWss ∧
      (priv_process_socket tls now io info).events =
        [TransportEvent.ConnectResult info.id]) ∧
    (∀ (m : TransportWss) (t : TickInput) (id : String) (i2 : WssInfo),
      (∀ p ∈ (postAccept m t).streamSockets,
        (tickConn (postAccept m t).tlsConfig t.now (t.io p.1) p.2).aborted = none) →
      (id, i2) ∈ (process m t).1.streamSockets →
      ∃ info0, (id, info0) ∈ (postAccept m t).streamSockets ∧
        i2 = (priv_process_socket (postAccept m t).tlsConfig t.now (t.io id) info0).info) := by
  refine ⟨priv_process_socket_stage_mem, ?_, ?_, ?_⟩
  · intro tls now io info hst hhs
    obtain ⟨id, url, lm, q, st⟩ := info
    simp only at hst
    subst hst
    simp [priv_process_socket, hsStepNoEv, priv_tls_handshake, hhs]
  · intro tls now io info hst hhs
    obtain ⟨id, url, lm, q, st⟩ := info
    simp only at hst
    subst hst
    simp [priv_process_socket, hsStep, priv_wss_handshake, hhs]
  · intro m t id i2 hab hmem
    have hp := process_noAbort m t hab
    rw [hp] at hmem
    obtain ⟨p, hpmem, hkey, hkept⟩ := keptCat_mem _ _ _ _ _ hmem
    have hkey2 : id = p.1 := hkey
    have hkept2 : (tickConn (postAccept m t).tlsConfig t.now (t.io p.1) p.2).kept
        = some i2 := hkept
    refine ⟨p.2, ?_, ?_⟩
    · rw [show (id, p.2) = p by rw [hkey2]]
      exact hpmem
    · rw [hkey2]
      cases hc : tickConn (postAccept m t).tlsConfig t.now (t.io p.1) p.2 with
      | keep i evs d =>
        rw [hc] at hkept2
        simp only [ConnStep.kept] at hkept2
        cases hkept2
        exact tickConn_keep _ _ _ _ _ _ _ hc
      | drop evs d => rw [hc] at hkept2; cases hkept2
      | abort evs d e => rw [hc] at hkept2; cases hkept2

/-- Fixture for the C4-amended witness. -/
def C4winfo : WssInfo := ⟨"ws2", "wss://y", 0, [], WebsocketStreamState.TlsReady⟩

/-- Fixture for the C4-amended witness. -/
def C4wio : SocketIo := ⟨HsResult.complete, none, ReadResult.wouldBlock, true, "p"⟩

/-- C4 witness: the parked `TlsMidHandshake → TlsReady` completion and the
next-tick `TlsReady → ReadyWss` WebSocket call on concrete records, plus
the one-transition and one-step-per-tick clauses at a concrete tick. -/
theorem claim_C4_amended_one_transition_per_tick_witness :
    (priv_process_socket TlsConfig.FakeServer 0 C4wio C4info).info.statefulSocket ∈
      codeSuccessors TlsConfig.FakeServer C4info.statefulSocket ∧
    ((priv_process_socket TlsConfig.FakeServer 0 C4wio C4info).info.statefulSocket =
      WebsocketStreamState.TlsReady ∧
     (priv_process_socket TlsConfig.FakeServer 0 C4wio C4info).events = []) ∧
    ((priv_process_socket TlsConfig.FakeServer 0 C4wio C4winfo).info.statefulSocket =
      WebsocketStreamState.ReadyWss ∧
     (priv_process_socket TlsConfig.FakeServer 0 C4wio C4winfo).events =
       [TransportEvent.ConnectResult "ws2"]) ∧
    (∃ info0, ("ws1", info0) ∈ (postAccept C4m C4t).streamSockets ∧
      (⟨"ws1", "wss://x", 0, [], WebsocketStreamState.TlsReady⟩ : WssInfo) =
        (priv_process_socket (postAccept C4m C4t).tlsConfig C4t.now (C4t.io "ws1")
          info0).info) := by
  obtain ⟨h1, h2, h3, h4⟩ := claim_C4_amended_one_transition_per_tick
  refine ⟨h1 TlsConfig.FakeServer 0 C4wio C4info, h2 TlsConfig.FakeServer 0 C4wio C4info rfl rfl,
    h3 TlsConfig.FakeServer 0 C4wio C4winfo rfl rfl, ?_⟩
  exact h4 C4m C4t "ws1" ⟨"ws1", "wss://x", 0, [], WebsocketStreamState.TlsReady⟩
    (by decide) (by decide)

/-- C3: a fatal step error (TLS/WS handshake failure or a non-would-block
read/write error) makes the same completed tick emit
`TransportError(id, e)` immediately followed by `Closed(id)`, and removes
the id from the connection table; and once an id is absent from the table
(and the acceptor cannot re-introduce it), no later tick emits any event
for it nor re-adds it — `Closed` is the last event for an id. -/
theorem claim_C3_fatal_error_terminal :
    (∀ (m : TransportWss) (t : TickInput) (id : String) (info : WssInfo) (e : String),
      (id, info) ∈ (postAccept m t).streamSockets →
      info.id = id →
      ((postAccept m t).streamSockets.map Prod.fst).Nodup →
      (∀ p ∈ (postAccept m t).streamSockets,
        (tickConn (postAccept m t).tlsConfig t.now (t.io p.1) p.2).aborted = none) →
      (priv_process_socket (postAccept m t).tlsConfig t.now (t.io id) info).err
        = some e →
      (∃ dw evs, (process m t).2 = Except.ok (dw, evs) ∧
        ∃ pre post, evs = pre ++
          [TransportEvent.TransportError id e, TransportEvent.Closed id] ++ post) ∧
      tlookup (process m t).1.streamSockets id = none) ∧
    (∀ (m : TransportWss) (t : TickInput) (id : String),
      tlookup (postAccept m t).streamSockets id = none →
      (∀ p ∈ (postAccept m t).streamSockets, p.2.id = p.1) →
      (∀ ev ∈ (postAccept m t).eventQueue, eventId ev ≠ id) →
      (∀ dw evs, (process m t).2 = Except.ok (dw, evs) →
        ∀ ev ∈ evs, eventId ev ≠ id) ∧
      tlookup (process m t).1.streamSockets id = none) := by
  constructor
  · intro m t id info e hmem hid hnodup hab herr
    have hp := process_noAbort m t hab
    have hdrop := tickConn_err (postAccept m t).tlsConfig t.now (t.io id) info e herr
    have hevseq : (tickConn (postAccept m t).tlsConfig t.now (t.io id) info).evs =
        [TransportEvent.TransportError id e, TransportEvent.Closed id] := by
      rw [hdrop]
      simp [ConnStep.evs, hid]
    constructor
    · obtain ⟨l1, l2, hsplit⟩ := List.append_of_mem hmem
      refine ⟨_, _, by rw [hp], ?_⟩
      refine ⟨(postAccept m t).eventQueue ++
          evsCat (postAccept m t).tlsConfig t.now t.io l1,
        evsCat (postAccept m t).tlsConfig t.now t.io l2, ?_⟩
      dsimp only
      rw [hsplit, evsCat_append]
      show _ ++ (_ ++ evsCat _ _ _ ((id, info) :: l2)) = _
      rw [show evsCat (postAccept m t).tlsConfig t.now t.io ((id, info) :: l2) =
          (tickConn (postAccept m t).tlsConfig t.now (t.io id) info).evs ++
            evsCat (postAccept m t).tlsConfig t.now t.io l2 from rfl]
      rw [hevseq]
      simp [List.append_assoc]
    · rw [hp]
      dsimp only
      rw [tlookup_eq_none_iff]
      intro q hq
      obtain ⟨p, hpl, hqk, hkept⟩ := keptCat_mem _ _ _ _ _ hq
      intro hqid
      have hp1 : p.1 = id := by rw [← hqk, hqid]
      have hpe : p = (id, info) :=
        nodup_keys_eq _ hnodup p (id, info) hpl hmem (by rw [hp1])
      rw [hpe] at hkept
      have hkept2 : (tickConn (postAccept m t).tlsConfig t.now (t.io id) info).kept
          = some q.2 := hkept
      rw [hdrop] at hkept2
      simp [ConnStep.kept] at hkept2
  · intro m t id hnone hwf hevq
    have hparts := process_parts m t
    constructor
    · intro dw evs hok ev hev
      rw [hparts.2 dw evs hok] at hev
      rcases processLoop_evs_mem _ _ _ _ _ _ _ ev hev with h1 | ⟨p, hpl, hpe⟩
      · exact hevq ev h1
      · have hident := tickConn_evs_id _ _ _ _ ev hpe
        rw [hident, hwf p hpl]
        exact (tlookup_eq_none_iff _ _).mp hnone p hpl
    · rw [hparts.1, tlookup_eq_none_iff]
      intro q hq
      rcases processLoop_table_mem _ _ _ _ _ _ _ q hq with h1 | h1
      · cases h1
      · obtain ⟨p, hpl, hpe⟩ := List.mem_map.mp h1
        rw [← hpe]
        exact (tlookup_eq_none_iff _ _).mp hnone p hpl

/-- Fixture for the C3 witness: a Ready record whose read fails fatally. -/
def C3info : WssInfo := ⟨"ws1", "wss://x", 0, [], WebsocketStreamState.ReadyWss⟩

/-- Fixture for the C3 witness. -/
def C3m : TransportWss :=
  ⟨TlsConfig.FakeServer, [("ws1", C3info)], [], 1,
    Except.error "acceptor not initialized"⟩

/-- Fixture for the C3 witness. -/
def C3t : TickInput :=
  ⟨0, Except.error "no inbound",
    fun _ => ⟨HsResult.wouldBlock, none, ReadResult.ioErr "boom", true, "p"⟩⟩

/-- Fixture for the C3 witness, second part: the id is already gone. -/
def C3m2 : TransportWss :=
  ⟨TlsConfig.FakeServer, [], [], 2, Except.error "acceptor not initialized"⟩

/-- Fixture for the C3 witness, second part. -/
def C3t2 : TickInput :=
  ⟨7, Except.error "no inbound",
    fun _ => ⟨HsResult.wouldBlock, none, ReadResult.wouldBlock, true, "p"⟩⟩

/-- C3 witness: the fatal-error tick on a concrete manager, and a later
tick that emits nothing for the dead id. -/
theorem claim_C3_fatal_error_terminal_witness :
    ((∃ dw evs, (process C3m C3t).2 = Except.ok (dw, evs) ∧
        ∃ pre post, evs = pre ++
          [TransportEvent.TransportError "ws1" "boom",
            TransportEvent.Closed "ws1"] ++ post) ∧
      tlookup (process C3m C3t).1.streamSockets "ws1" = none) ∧
    ((∀ dw evs, (process C3m2 C3t2).2 = Except.ok (dw, evs) →
        ∀ ev ∈ evs, eventId ev ≠ "ws1") ∧
      tlookup (process C3m2 C3t2).1.streamSockets "ws1" = none) := by
  constructor
  · exact claim_C3_fatal_error_terminal.1 C3m C3t "ws1" C3info "boom"
      (by decide) rfl (by decide) (by decide) rfl
  · exact claim_C3_fatal_error_terminal.2 C3m2 C3t2 "ws1" rfl (by decide) (by decide)

/-- C8: signing then verifying round-trips: for every keypair produced by
`sign_seed_keypair` from a correct-size seed (and hence also by
`sign_keypair`, which draws a correct-size random seed and delegates), and
every message, `sign_verify(sign(m, sk), m, pk)` returns `Ok true`. -/
theorem claim_C8_sign_verify_roundtrip :
    (∀ seed msg pkbuf skbuf sigbuf : List Nat,
      seed.length = FakeCryptoSystem.sign_seed_bytes →
      pkbuf.length = FakeCryptoSystem.sign_public_key_bytes →
      skbuf.length = FakeCryptoSystem.sign_secret_key_bytes →
      sigbuf.length = FakeCryptoSystem.sign_bytes →
      ∃ pk sk sig,
        FakeCryptoSystem.sign_seed_keypair seed pkbuf skbuf = Except.ok (pk, sk) ∧
        FakeCryptoSystem.sign sigbuf msg sk = Except.ok sig ∧
        FakeCryptoSystem.sign_verify sig msg pk = Except.ok true) ∧
    (∀ randomSeed pk sk : List Nat,
      pk.length = FakeCryptoSystem.sign_public_key_bytes →
      sk.length = FakeCryptoSystem.sign_secret_key_bytes →
      FakeCryptoSystem.sign_keypair randomSeed pk sk =
        FakeCryptoSystem.sign_seed_keypair randomSeed pk sk) := by
  constructor
  · intro seed msg pkbuf skbuf sigbuf hseed hpk hsk hsig
    open FakeCryptoSystem in
    simp only [sign_seed_bytes, sign_public_key_bytes,
      sign_secret_key_bytes, sign_bytes] at hseed hpk hsk hsig
    set mlen := if msg.length > 8 then 8 else msg.length with hmlen
    have hmle : mlen ≤ 8 := by rw [hmlen]; split <;> omega
    have hmlemsg : mlen ≤ msg.length := by rw [hmlen]; split <;> omega
    have htakemlen : (msg.take mlen).length = mlen := by
      rw [List.length_take]; omega
    have hskw : bufWrite skbuf 0 seed = Except.ok seed := by
      rw [bufWrite_ok skbuf 0 seed (by omega)]
      rw [List.drop_eq_nil_of_le (by omega)]
      simp
    have hpkw : bufWrite (List.replicate pkbuf.length 0) 0 seed =
        Except.ok (seed ++ List.replicate 24 0) := by
      rw [bufWrite_ok _ 0 seed (by simp [hpk, hseed])]
      simp only [List.take_zero, List.nil_append, Nat.zero_add, hseed,
        List.drop_replicate, hpk]
    have hkp : sign_seed_keypair seed pkbuf skbuf =
        Except.ok (seed ++ List.replicate 24 0, seed) := by
      unfold sign_seed_keypair
      rw [if_neg (by simp [sign_seed_bytes, hseed]),
        if_neg (by simp [sign_public_key_bytes, hpk]),
        if_neg (by simp [sign_secret_key_bytes, hsk])]
      simp only [hskw, hpkw]
    have hs1 : bufWrite sigbuf 0 seed = Except.ok (seed ++ sigbuf.drop 8) := by
      rw [bufWrite_ok _ _ _ (by omega)]
      simp [hseed]
    have hdropsplit : (seed ++ sigbuf.drop 8).drop (8 + mlen) =
        (sigbuf.drop 8).drop mlen := by
      have h0 : (seed ++ sigbuf.drop 8).drop (seed.length + mlen) =
          (sigbuf.drop 8).drop mlen := List.drop_append mlen
      rw [hseed] at h0
      exact h0
    have hs2 : bufWrite (seed ++ sigbuf.drop 8) 8 (msg.take mlen) =
        Except.ok (seed ++ (msg.take mlen ++ (sigbuf.drop 8).drop mlen)) := by
      rw [bufWrite_ok _ _ _ (by simp [htakemlen, hseed, hsig]; omega)]
      rw [List.take_left' hseed, htakemlen, hdropsplit]
      simp
    have hsg : sign sigbuf msg seed =
        Except.ok (seed ++ (msg.take mlen ++ (sigbuf.drop 8).drop mlen)) := by
      unfold sign
      rw [if_neg (by simp [sign_bytes, hsig]),
        if_neg (by simp [sign_secret_key_bytes, hseed])]
      simp only [hs1, ← hmlen, hs2]
    have hsiglen : (seed ++ (msg.take mlen ++ (sigbuf.drop 8).drop mlen)).length = 16 := by
      rw [List.length_append, List.length_append, htakemlen, List.length_drop,
        List.length_drop, hseed, hsig]
      omega
    have hpklen : (seed ++ List.replicate 24 0).length = 32 := by
      rw [List.length_append, List.length_replicate, hseed]
    have hv : sign_verify (seed ++ (msg.take mlen ++ (sigbuf.drop 8).drop mlen)) msg
        (seed ++ List.replicate 24 0) = Except.ok true := by
      have e1 : (seed ++ (msg.take mlen ++ (sigbuf.drop 8).drop mlen)).take 8 = seed :=
        List.take_left' hseed
      have e2 : (seed ++ List.replicate 24 0).take 8 = seed := List.take_left' hseed
      have e3 : (seed ++ (msg.take mlen ++ (sigbuf.drop 8).drop mlen)).drop 8 =
          msg.take mlen ++ (sigbuf.drop 8).drop mlen := List.drop_left' hseed
      have e4 : (msg.take mlen ++ (sigbuf.drop 8).drop mlen).take mlen = msg.take mlen :=
        List.take_left' htakemlen
      unfold sign_verify
      rw [if_neg (by rw [hsiglen]; simp [sign_bytes]),
        if_neg (by rw [hpklen]; simp [sign_public_key_bytes])]
      rw [← hmlen, e1, e2, e3, e4]
      simp
    exact ⟨_, _, _, hkp, hsg, hv⟩
  · intro randomSeed pk sk hpk hsk
    simp [FakeCryptoSystem.sign_keypair, hpk, hsk]

/-- C8 witness: a concrete seed and short message round-trip. -/
theorem claim_C8_sign_verify_roundtrip_witness :
    ([1, 2, 3, 4, 5, 6, 7, 8] : List Nat).length = FakeCryptoSystem.sign_seed_bytes ∧
    (∃ pk sk sig,
      FakeCryptoSystem.sign_seed_keypair [1, 2, 3, 4, 5, 6, 7, 8]
        (List.replicate 32 0) (List.replicate 8 0) = Except.ok (pk, sk) ∧
      FakeCryptoSystem.sign (List.replicate 16 0) [9, 10] sk = Except.ok sig ∧
      FakeCryptoSystem.sign_verify sig [9, 10] pk = Except.ok true) ∧
    FakeCryptoSystem.sign_keypair [1, 2, 3, 4, 5, 6, 7, 8]
        (List.replicate 32 0) (List.replicate 8 0) =
      FakeCryptoSystem.sign_seed_keypair [1, 2, 3, 4, 5, 6, 7, 8]
        (List.replicate 32 0) (List.replicate 8 0) :=
  ⟨by decide,
    claim_C8_sign_verify_roundtrip.1 [1, 2, 3, 4, 5, 6, 7, 8] [9, 10]
      (List.replicate 32 0) (List.replicate 8 0) (List.replicate 16 0)
      (by decide) (by decide) (by decide) (by decide),
    claim_C8_sign_verify_roundtrip.2 [1, 2, 3, 4, 5, 6, 7, 8]
      (List.replicate 32 0) (List.replicate 8 0) (by decide) (by decide)⟩

/-- C9 counterexample: `box_clone` is the derived `Clone`, which copies
the `RefCell<ProtectState>` along with the bytes, so cloning a buffer
that is currently readable (a state reachable from a fresh buffer through
the public `set_readable`) yields a clone whose initial protection state
is `ReadOnly`, not `NoAccess`. -/
theorem claim_C9_counterexample :
    set_readable (InsecureBuffer.new 3) =
      some ⟨List.replicate 3 0, ProtectState.ReadOnly⟩ ∧
    (box_clone ⟨List.replicate 3 0, ProtectState.ReadOnly⟩).p =
      ProtectState.ReadOnly ∧
    (box_clone ⟨List.replicate 3 0, ProtectState.ReadOnly⟩).p ≠
      ProtectState.NoAccess :=
  ⟨rfl, rfl, by decide⟩

/-- C9 (amended): `box_clone` produces an independent buffer whose
contents and protection state equal the source's at call time — so the
clone starts `NoAccess` exactly when the source is unlocked — and
`zero()` afterwards zeroes only the source, leaving the clone's bytes
unchanged (replaying the `test_sec_buf` sequence: fresh buffer, write,
clone, zero). -/
theorem claim_C9_amended_clone_copies_state :
    (∀ buf : InsecureBuffer,
      (box_clone buf).b = buf.b ∧ (box_clone buf).p = buf.p ∧
      (buf.p = ProtectState.NoAccess → (box_clone buf).p = ProtectState.NoAccess) ∧
      (zero buf).b = List.replicate buf.b.length 0 ∧ (zero buf).p = buf.p) ∧
    (∀ (n : Nat) (data : List Nat), data.length = n →
      ∃ b1, ibWrite (InsecureBuffer.new n) 0 data = Except.ok b1 ∧
        b1.b = data ∧ b1.p = ProtectState.NoAccess ∧
        (box_clone b1).p = ProtectState.NoAccess ∧
        (zero b1).b = List.replicate n 0 ∧
        (box_clone b1).b = data) := by
  constructor
  · intro buf
    exact ⟨rfl, rfl, fun h => h, rfl, rfl⟩
  · intro n data h
    have hw : bufWrite (List.replicate n 0) 0 data = Except.ok data := by
      rw [bufWrite_ok _ _ _ (by simp [h])]
      simp [h, List.drop_replicate]
    refine ⟨⟨data, ProtectState.NoAccess⟩, ?_, rfl, rfl, rfl, ?_, rfl⟩
    · unfold ibWrite InsecureBuffer.new
      rw [show (InsecureBuffer.mk (List.replicate n 0) ProtectState.NoAccess).b =
        List.replicate n 0 from rfl, hw]
    · show List.replicate data.length 0 = List.replicate n 0
      rw [h]

/-- C9 witness: the `test_sec_buf` bytes. -/
theorem claim_C9_amended_clone_copies_state_witness :
    ((box_clone (InsecureBuffer.new 4)).p = (InsecureBuffer.new 4).p ∧
      ((InsecureBuffer.new 4).p = ProtectState.NoAccess →
        (box_clone (InsecureBuffer.new 4)).p = ProtectState.NoAccess)) ∧
    (([42, 88, 132, 56, 12, 254, 212, 88] : List Nat).length = 8 ∧
      ∃ b1, ibWrite (InsecureBuffer.new 8) 0 [42, 88, 132, 56, 12, 254, 212, 88] =
          Except.ok b1 ∧
        b1.b = [42, 88, 132, 56, 12, 254, 212, 88] ∧
        b1.p = ProtectState.NoAccess ∧
        (box_clone b1).p = ProtectState.NoAccess ∧
        (zero b1).b = List.replicate 8 0 ∧
        (box_clone b1).b = [42, 88, 132, 56, 12, 254, 212, 88]) := by
  constructor
  · have h := (claim_C9_amended_clone_copies_state.1 (InsecureBuffer.new 4))
    exact ⟨h.2.1, h.2.2.1⟩
  · exact ⟨by decide, claim_C9_amended_clone_copies_state.2 8
      [42, 88, 132, 56, 12, 254, 212, 88] (by decide)⟩

end Lib3h
